import Mathlib

/-!
Shallow embedding of the Adaptive Assessment Controller of the Questioner
repository (src/models.py, src/question_flow.py, src/config.py).

Conventions of the embedding:
* Python floats are modelled as exact rationals (`ℚ`).  Every property proved
  below is numerically robust (clamps, branch selections with wide margins),
  so the exact-arithmetic model decides it the same way the float code does.
* Python `int` values (answer indices, difficulties of questions) are `ℤ`;
  Python `int(x)` truncation toward zero is `pyInt`.
* Python dictionaries keyed by rounded confidences are association lists whose
  keys are kept in first-insertion order, exactly like CPython dicts.
* `round(x, 1)` (CPython float rounding to one decimal) and the Pearson
  correlation coefficient `EnhancedConfidenceEngine.calculate_correlation`
  (which needs `math.sqrt`) are taken as parameters `roundFn` / `corrFn` of
  the model.  All theorems below either quantify over both parameters (so
  they hold in particular for CPython's rounding and the source's Pearson
  coefficient) or use them on computation paths where the source never calls
  them.  `pyRound1` is the nearest-tenth rounding used to run concrete
  traces; on every concrete trace in this file the rounded values are exact
  tenths, where every tie-breaking convention agrees.
* `ℚ` division is total with `x / 0 = 0`; the source guards every division
  it performs (or, for `interpolate_confidence` on a malformed curve, would
  raise), and no theorem below depends on the `x / 0 = 0` totalisation.
* Python calls that can raise an uncaught exception are modelled by outcome
  types (`CompleteOutcome`, `SubmitOutcome`) whose `raised` constructor
  carries the exception text together with the manager state as mutated in
  place up to the raise.  In particular `complete_domain_assessment` always
  raises `KeyError` on an active assessment, because the config keys it
  reads do not exist (see its doc comment).
-/

/-- Python `int(q)` for a rational: truncation toward zero. -/
def pyInt (q : ℚ) : ℤ :=
  if q < 0 then -Int.floor (-q) else Int.floor q

/-- Nearest-tenth rounding, the concrete instance used for the `roundFn`
parameter when running traces (CPython `round(x, 1)`). -/
def pyRound1 (q : ℚ) : ℚ :=
  (Int.floor (q * 10 + 1 / 2) : ℚ) / 10

/-! ## Configuration constants (src/config.py) -/

/-- Source `CORRECT_ANSWER_BASE_POINTS` (config.py line 59). -/
def CORRECT_ANSWER_BASE_POINTS : ℚ := 10

/-- Source `DIFFICULTY_BONUS_MULTIPLIER` (config.py line 60). -/
def DIFFICULTY_BONUS_MULTIPLIER : ℚ := 1 / 10

/-- Source `CONFIDENCE_BONUS_MULTIPLIER` (config.py line 61). -/
def CONFIDENCE_BONUS_MULTIPLIER : ℚ := 1 / 20

/-- Source `TIME_BONUS_THRESHOLD` (config.py line 62). -/
def TIME_BONUS_THRESHOLD : ℚ := 4 / 5

/-- Source `HONESTY_REWARD` (config.py line 63). -/
def HONESTY_REWARD : ℚ := 2

/-- Source `DOMAIN_MASTERED_SCORE` (config.py line 65). -/
def DOMAIN_MASTERED_SCORE : ℚ := 90

/-- Source `DOMAIN_COMPLETED_SCORE` (config.py line 66). -/
def DOMAIN_COMPLETED_SCORE : ℚ := 70

/-- Source `MAX_QUESTIONS_PER_DOMAIN` (config.py line 23). -/
def MAX_QUESTIONS_PER_DOMAIN : ℚ := 20

/-- Source `EXPECTED_TIME_BASE` (config.py line 37). -/
def EXPECTED_TIME_BASE : ℚ := 30

/-- Source `CONFIDENCE_HISTORY_SIZE` (config.py line 25). -/
def CONFIDENCE_HISTORY_SIZE : ℕ := 100

/-! ## ConfidenceCalibrationEngine (models.py lines 70-129) -/

/-- State of `ConfidenceCalibrationEngine`: the FIFO history of
`(confidence, is_correct)` pairs, the calibration curve (a dict keyed by
rounded confidence, kept in insertion order), and the history capacity. -/
structure CalibEngine where
  confidence_accuracy_pairs : List (ℚ × Bool)
  calibration_curve : List (ℚ × ℚ)
  history_size : ℕ
deriving Repr, DecidableEq

/-- Source `ConfidenceCalibrationEngine.__init__` (models.py lines 71-74). -/
def CalibEngine.init (history_size : ℕ := 100) : CalibEngine :=
  ⟨[], [], history_size⟩

/-- Keys of the pairs in first-occurrence order (CPython dict key order for
the `bins` dict built in `calculate_calibration_curve`). -/
def dedupKeys (ks : List ℚ) : List ℚ :=
  ks.foldl (fun acc k => if k ∈ acc then acc else acc ++ [k]) []

/-- Number of `true` entries: Python `sum(results)` over booleans. -/
def countTrue (l : List Bool) : ℕ :=
  (l.filter (fun b => b)).length

/-- Body of `calculate_calibration_curve` past the length guard
(models.py lines 88-99): bin the pairs by rounded confidence and keep the
empirical accuracy of every bin holding at least 3 samples. -/
def buildCurve (roundFn : ℚ → ℚ) (pairs : List (ℚ × Bool)) : List (ℚ × ℚ) :=
  let keys := dedupKeys (pairs.map (fun p => roundFn p.1))
  keys.filterMap (fun k =>
    let results := (pairs.filter (fun p => roundFn p.1 = k)).map (fun p => p.2)
    if 3 ≤ results.length then
      some (k, (countTrue results : ℚ) / (results.length : ℚ))
    else none)

/-- Source `calculate_calibration_curve` (models.py lines 84-99): leaves the curve
unchanged below 10 samples, otherwise rebuilds it from the full history. -/
def CalibEngine.calculate_calibration_curve (roundFn : ℚ → ℚ)
    (e : CalibEngine) : CalibEngine :=
  if e.confidence_accuracy_pairs.length < 10 then e
  else { e with calibration_curve := buildCurve roundFn e.confidence_accuracy_pairs }

/-- Source `update_calibration` (models.py lines 76-82): append the pair, evict the
oldest entry beyond capacity, recompute the curve. -/
def CalibEngine.update_calibration (roundFn : ℚ → ℚ) (e : CalibEngine)
    (confidence : ℚ) (is_correct : Bool) : CalibEngine :=
  let pairs := e.confidence_accuracy_pairs ++ [(confidence, is_correct)]
  let pairs := if e.history_size < pairs.length then pairs.drop 1 else pairs
  CalibEngine.calculate_calibration_curve roundFn { e with confidence_accuracy_pairs := pairs }

/-- Dict lookup `self.calibration_curve[bin_key]` (present keys only; the
default 0 is never reached by the source, which checks membership first). -/
def curveGet (curve : List (ℚ × ℚ)) (k : ℚ) : ℚ :=
  match curve.find? (fun p => p.1 = k) with
  | some p => p.2
  | none => 0

/-- Insertion into a sorted list, for Python `sorted(...)` over bin keys. -/
def insertSorted (x : ℚ) : List ℚ → List ℚ
  | [] => [x]
  | y :: ys => if x ≤ y then x :: y :: ys else y :: insertSorted x ys

/-- Python `sorted(keys)`. -/
def sortKeys (l : List ℚ) : List ℚ :=
  l.foldr insertSorted []

/-- The scan `for i in range(len(sorted_bins) - 1)` of
`interpolate_confidence` (models.py lines 121-127): find the adjacent pair
of populated bins bracketing `c` and interpolate linearly. -/
def interpScan (get : ℚ → ℚ) (c : ℚ) : List ℚ → ℚ
  | x1 :: x2 :: rest =>
    if x1 ≤ c ∧ c ≤ x2 then
      get x1 + (get x2 - get x1) * (c - x1) / (x2 - x1)
    else interpScan get c (x2 :: rest)
  | _ => c

/-- Source `interpolate_confidence` (models.py lines 109-129). -/
def CalibEngine.interpolate_confidence (e : CalibEngine) (confidence : ℚ) : ℚ :=
  match sortKeys (e.calibration_curve.map (fun p => p.1)) with
  | [] => confidence
  | k0 :: ks =>
    if confidence ≤ k0 then curveGet e.calibration_curve k0
    else
      let last := (k0 :: ks).getLast (by simp)
      if last ≤ confidence then curveGet e.calibration_curve last
      else interpScan (curveGet e.calibration_curve) confidence (k0 :: ks)

/-- Source `get_calibrated_confidence` (models.py lines 101-107). -/
def CalibEngine.get_calibrated_confidence (roundFn : ℚ → ℚ) (e : CalibEngine)
    (raw_confidence : ℚ) : ℚ :=
  match e.calibration_curve.find? (fun p => p.1 = roundFn raw_confidence) with
  | some p => p.2
  | none => e.interpolate_confidence raw_confidence


/-! ## EnhancedConfidenceEngine (models.py lines 131-213) -/

/-- State of `EnhancedConfidenceEngine`.  The Pearson coefficient computed by
`calculate_correlation` (models.py lines 163-180, which needs `math.sqrt`)
enters the model through the `corrFn` parameter of the update functions. -/
structure EnhConfEngine where
  calibration_engine : CalibEngine
  confidence_history : List ℚ
  accuracy_history : List ℚ
  confidence_accuracy_correlation : ℚ
  history_size : ℕ
deriving Repr, DecidableEq

/-- Source `EnhancedConfidenceEngine.__init__` (models.py lines 132-137). -/
def EnhConfEngine.init (history_size : ℕ := 50) : EnhConfEngine :=
  ⟨CalibEngine.init 100, [], [], 0, history_size⟩

/-- Source `update_correlation` (models.py lines 150-161): push the pair of
histories, evict beyond capacity, and recompute the correlation coefficient
(via `corrFn`) once at least 10 samples are present. -/
def EnhConfEngine.update_correlation (corrFn : List ℚ → List ℚ → ℚ)
    (e : EnhConfEngine) (confidence : ℚ) (is_correct : Bool) : EnhConfEngine :=
  let ch := e.confidence_history ++ [confidence]
  let ah := e.accuracy_history ++ [if is_correct then (1 : ℚ) else 0]
  let ch2 := if e.history_size < ch.length then ch.drop 1 else ch
  let ah2 := if e.history_size < ch.length then ah.drop 1 else ah
  if 10 ≤ ch2.length then
    { e with confidence_history := ch2, accuracy_history := ah2,
             confidence_accuracy_correlation := corrFn ch2 ah2 }
  else
    { e with confidence_history := ch2, accuracy_history := ah2 }

/-- Source `calculate_comprehensive_impact` (models.py lines 182-213), reading the
engine state as it stands after the calibration/correlation updates. -/
def EnhConfEngine.calculate_comprehensive_impact (e : EnhConfEngine)
    (calibrated_confidence : ℚ) (is_correct : Bool) (response_time : ℚ)
    (difficulty : ℤ) (raw_confidence : ℚ) : ℚ :=
  let base_impact := if is_correct then calibrated_confidence else -calibrated_confidence
  let calibration_quality_weight :=
    min 1 ((e.calibration_engine.confidence_accuracy_pairs.length : ℚ) / 50)
  let correlation_weight := |e.confidence_accuracy_correlation|
  let expected_time := 30 + ((difficulty : ℚ) / 100) * 30
  let time_ratio := response_time / expected_time
  let time_consistency_weight :=
    if is_correct ∧ time_ratio < 4 / 5 ∧ raw_confidence > 7 / 10 then (6 : ℚ) / 5
    else if ¬is_correct ∧ time_ratio > 6 / 5 ∧ raw_confidence < 2 / 5 then 11 / 10
    else 1
  let difficulty_adaptability_weight :=
    if (70 < difficulty ∧ 4 / 5 < raw_confidence) ∨ (difficulty < 30 ∧ raw_confidence < 3 / 10)
    then (23 : ℚ) / 20 else 1
  base_impact * (1 + 3 / 10 * calibration_quality_weight) *
    (1 + 1 / 5 * correlation_weight) * time_consistency_weight *
    difficulty_adaptability_weight

/-- Source `calculate_confidence_impact` (models.py lines 139-148): calibrate the
raw confidence against the curve as it was before this sample, push the
sample into the calibration and correlation histories, then compute the
comprehensive impact on the updated state.  Returns the impact together with
the updated engine (the source mutates `self`). -/
def EnhConfEngine.calculate_confidence_impact (roundFn : ℚ → ℚ)
    (corrFn : List ℚ → List ℚ → ℚ) (e : EnhConfEngine) (confidence : ℚ)
    (is_correct : Bool) (response_time : ℚ) (difficulty : ℤ) :
    ℚ × EnhConfEngine :=
  let calibrated_confidence :=
    e.calibration_engine.get_calibrated_confidence roundFn confidence
  let e1 := { e with calibration_engine :=
    e.calibration_engine.update_calibration roundFn confidence is_correct }
  let e2 := e1.update_correlation corrFn confidence is_correct
  (e2.calculate_comprehensive_impact calibrated_confidence is_correct
    response_time difficulty confidence, e2)

/-! ## ConfidenceQualityMetrics (models.py lines 215-288) -/

/-- State of `ConfidenceQualityMetrics`. -/
structure QualityMetrics where
  confidence_accuracy_data : List (ℚ × Bool)
  history_size : ℕ
deriving Repr, DecidableEq

/-- Source `ConfidenceQualityMetrics.__init__` (models.py lines 216-218). -/
def QualityMetrics.init (history_size : ℕ := 100) : QualityMetrics :=
  ⟨[], history_size⟩

/-- Source `add_data_point` (models.py lines 220-224). -/
def QualityMetrics.add_data_point (m : QualityMetrics) (confidence : ℚ)
    (is_correct : Bool) : QualityMetrics :=
  let data := m.confidence_accuracy_data ++ [(confidence, is_correct)]
  { m with confidence_accuracy_data :=
      if m.history_size < data.length then data.drop 1 else data }

/-- Source `calculate_calibration_error` (models.py lines 242-261): sample-weighted
mean absolute gap between each populated bin's nominal confidence and its
observed accuracy; bins below 3 samples are excluded; 0 without any bin. -/
def QualityMetrics.calculate_calibration_error (roundFn : ℚ → ℚ)
    (m : QualityMetrics) : ℚ :=
  let data := m.confidence_accuracy_data
  let keys := dedupKeys (data.map (fun p => roundFn p.1))
  let contribs := keys.filterMap (fun k =>
    let results := (data.filter (fun p => roundFn p.1 = k)).map (fun p => p.2)
    if 3 ≤ results.length then
      let actual_accuracy := (countTrue results : ℚ) / (results.length : ℚ)
      some (|k - actual_accuracy| * (results.length : ℚ), (results.length : ℚ))
    else none)
  let total_error := (contribs.map (fun c => c.1)).sum
  let total_weight := (contribs.map (fun c => c.2)).sum
  if 0 < total_weight then total_error / total_weight else 0

/-- Source `calculate_overconfidence` (models.py lines 263-273): fraction of
responses with confidence above 0.7 that were incorrect; 0 if none. -/
def QualityMetrics.calculate_overconfidence (m : QualityMetrics) : ℚ :=
  let high := m.confidence_accuracy_data.filter (fun p => 7 / 10 < p.1)
  let high_incorrect := high.filter (fun p => ¬p.2)
  if 0 < high.length then (high_incorrect.length : ℚ) / (high.length : ℚ) else 0

/-- Arithmetic mean of a list of rationals. -/
def listMean (l : List ℚ) : ℚ :=
  l.sum / (l.length : ℚ)

/-- Python `statistics.variance`: sample variance with denominator `n - 1`
(the source only calls it on lists of length at least 3). -/
def sampleVariance (l : List ℚ) : ℚ :=
  ((l.map (fun x => (x - listMean l) ^ 2)).sum) / ((l.length : ℚ) - 1)

/-- Source `calculate_consistency` (models.py lines 275-288): neutral 0.5 below 3
correct or 3 incorrect samples, otherwise `1 / (1 + avg_variance)`. -/
def QualityMetrics.calculate_consistency (m : QualityMetrics) : ℚ :=
  let correct_confidences :=
    (m.confidence_accuracy_data.filter (fun p => p.2)).map (fun p => p.1)
  let incorrect_confidences :=
    (m.confidence_accuracy_data.filter (fun p => ¬p.2)).map (fun p => p.1)
  if correct_confidences.length < 3 ∨ incorrect_confidences.length < 3 then 1 / 2
  else
    let avg_variance :=
      (sampleVariance correct_confidences + sampleVariance incorrect_confidences) / 2
    1 / (1 + avg_variance)

/-- Source `get_confidence_quality_score` (models.py lines 226-240): neutral 0.5
below 10 samples, otherwise the weighted blend clamped to [0, 1]. -/
def QualityMetrics.get_confidence_quality_score (roundFn : ℚ → ℚ)
    (m : QualityMetrics) : ℚ :=
  if m.confidence_accuracy_data.length < 10 then 1 / 2
  else
    let calibration_error := m.calculate_calibration_error roundFn
    let overconfidence := m.calculate_overconfidence
    let consistency := m.calculate_consistency
    let quality_score := 4 / 10 * (1 - calibration_error) +
      4 / 10 * (1 - overconfidence) + 2 / 10 * consistency
    max 0 (min 1 quality_score)

/-! ## ImprovedAdaptiveDifficultyEngine (models.py lines 290-410) -/

/-- State of `ImprovedAdaptiveDifficultyEngine`. -/
structure DiffEngine where
  current_difficulty : ℚ
  recent_performance : List Bool
  recent_response_times : List ℚ
  consecutive_correct : ℕ
  consecutive_incorrect : ℕ
  history_size : ℕ
  confidence_engine : EnhConfEngine
deriving Repr, DecidableEq

/-- Source `ImprovedAdaptiveDifficultyEngine.__init__` (models.py lines 291-298). -/
def DiffEngine.init (initial_difficulty : ℤ := 50) (history_size : ℕ := 10) :
    DiffEngine :=
  ⟨(initial_difficulty : ℚ), [], [], 0, 0, history_size, EnhConfEngine.init⟩

/-- Source `calculate_time_impact` (models.py lines 339-354). -/
def DiffEngine.calculate_time_impact (e : DiffEngine) (response_time : ℚ)
    (is_correct : Bool) : ℚ :=
  let expected_time := 30 + (e.current_difficulty / 100) * 30
  let time_ratio := response_time / expected_time
  if is_correct then
    if time_ratio < 7 / 10 then 2
    else if time_ratio > 3 / 2 then -1
    else 0
  else
    if time_ratio < 7 / 10 then -2
    else if time_ratio > 3 / 2 then 1
    else 0

/-- Number of polarity changes between consecutive entries of the rolling
correctness window (the `changes` loop of models.py lines 362-365). -/
def countChanges : List Bool → ℕ
  | a :: b :: rest => (if a ≠ b then 1 else 0) + countChanges (b :: rest)
  | _ => 0

/-- Source `calculate_stability_factor` (models.py lines 356-374).  (The source also
computes a `recent_accuracy` it never uses; it is omitted here.) -/
def DiffEngine.calculate_stability_factor (e : DiffEngine) : ℚ :=
  if e.recent_performance.length < 5 then 1
  else
    let changes := countChanges e.recent_performance
    let change_rate := (changes : ℚ) / ((e.recent_performance.length : ℚ) - 1)
    if change_rate > 3 / 5 then 7 / 10
    else if change_rate < 1 / 5 then 13 / 10
    else 1

/-- Source `calculate_enhanced_adjustment` (models.py lines 319-337), called by the
source after the rolling window and the streak counters were updated; it also
advances the confidence engine (returned as second component). -/
def DiffEngine.calculate_enhanced_adjustment (roundFn : ℚ → ℚ)
    (corrFn : List ℚ → List ℚ → ℚ) (e : DiffEngine) (is_correct : Bool)
    (response_time : ℚ) (confidence : ℚ) : ℚ × EnhConfEngine :=
  let base_adjustment : ℚ := if is_correct then 5 else -5
  let base_adjustment :=
    if 3 ≤ e.consecutive_correct then base_adjustment * (6 / 5)
    else if 3 ≤ e.consecutive_incorrect then base_adjustment * (6 / 5)
    else base_adjustment
  let ci := e.confidence_engine.calculate_confidence_impact roundFn corrFn
    confidence is_correct response_time (pyInt e.current_difficulty)
  let time_impact := e.calculate_time_impact response_time is_correct
  let stability_factor := e.calculate_stability_factor
  let total_adjustment := (base_adjustment + ci.1 + time_impact) * stability_factor
  (max (-15) (min 15 total_adjustment), ci.2)

/-- Source `update_difficulty` (models.py lines 300-317): push into the rolling
windows (FIFO, capacity `history_size`), update the streak counters, compute
the enhanced adjustment and clamp the new difficulty into [1, 100]. -/
def DiffEngine.update_difficulty (roundFn : ℚ → ℚ)
    (corrFn : List ℚ → List ℚ → ℚ) (e : DiffEngine) (is_correct : Bool)
    (response_time : ℚ) (confidence : ℚ) : DiffEngine :=
  let perf := e.recent_performance ++ [is_correct]
  let times := e.recent_response_times ++ [response_time]
  let perf2 := if e.history_size < perf.length then perf.drop 1 else perf
  let times2 := if e.history_size < perf.length then times.drop 1 else times
  let e1 := { e with
    recent_performance := perf2,
    recent_response_times := times2,
    consecutive_correct := if is_correct then e.consecutive_correct + 1 else 0,
    consecutive_incorrect := if is_correct then 0 else e.consecutive_incorrect + 1 }
  let adj := e1.calculate_enhanced_adjustment roundFn corrFn is_correct response_time confidence
  { e1 with confidence_engine := adj.2,
            current_difficulty := max 1 (min 100 (e1.current_difficulty + adj.1)) }

/-- Source `calculate_system_confidence` (models.py lines 376-410), evaluated on the
engine state before `update_difficulty` (as `submit_answer` does). -/
def DiffEngine.calculate_system_confidence (e : DiffEngine) (is_correct : Bool)
    (response_time : ℚ) : ℚ :=
  let base0 : ℚ := 1 / 2
  let base1 := if is_correct then base0 + 3 / 10 else base0 - 1 / 5
  let expected_time := 30 + (e.current_difficulty / 100) * 30
  let time_ratio := response_time / expected_time
  let base2 :=
    if is_correct ∧ time_ratio < 7 / 10 then base1 + 1 / 5
    else if is_correct ∧ time_ratio > 3 / 2 then base1 - 1 / 10
    else if ¬is_correct ∧ time_ratio < 1 / 2 then base1 - 1 / 5
    else base1
  let base3 :=
    if 3 ≤ e.consecutive_correct then base2 + 1 / 10
    else if 2 ≤ e.consecutive_incorrect then base2 - 1 / 10
    else base2
  let base4 :=
    if 3 ≤ e.recent_performance.length then
      let last3 := e.recent_performance.drop (e.recent_performance.length - 3)
      let recent_accuracy := (countTrue last3 : ℚ) / 3
      if recent_accuracy > 4 / 5 ∧ e.current_difficulty < 70 then base3 + 1 / 10
      else if recent_accuracy < 2 / 5 ∧ e.current_difficulty > 50 then base3 - 1 / 10
      else base3
    else base3
  max (1 / 10) (min (9 / 10) base4)

/-- A sequence of `update_difficulty` calls (left to right), as a domain
assessment performs them over its lifetime. -/
def DiffEngine.runUpdates (roundFn : ℚ → ℚ) (corrFn : List ℚ → List ℚ → ℚ)
    (e : DiffEngine) (inputs : List (Bool × ℚ × ℚ)) : DiffEngine :=
  inputs.foldl (fun acc i => acc.update_difficulty roundFn corrFn i.1 i.2.1 i.2.2) e

/-- The all-zero stand-in for the Pearson coefficient, used to run concrete
traces whose histories never reach the 10 samples at which the source first
calls `calculate_correlation` (so any `corrFn` gives the same trace). -/
def zeroCorr : List ℚ → List ℚ → ℚ := fun _ _ => 0

/-! ## Data model (models.py lines 8-57) -/

/-- Source `DomainStatus` (models.py lines 8-13). -/
inductive DomainStatus where
  | NOT_STARTED
  | IN_PROGRESS
  | COMPLETED
  | MASTERED
  | STRUGGLING
deriving Repr, DecidableEq

/-- Source `Question` (models.py lines 27-35). -/
structure Question where
  question : String
  options : List String
  correct_answer_index : ℤ
  knowledge_tag : String
  explanation : String
  difficulty_level : ℤ
  estimated_time : ℤ
deriving Repr, DecidableEq

/-- Source `QuestionResponse` (models.py lines 37-44); the wall-clock timestamp is
modelled by the `now` parameter with which `submit_answer` is invoked. -/
structure QuestionResponse where
  question_id : String
  user_answer_index : ℤ
  is_correct : Bool
  response_time : ℚ
  confidence_level : ℚ
  timestamp : ℚ
deriving Repr, DecidableEq

/-- Source `DomainAssessment` (models.py lines 46-57). -/
structure DomainAssessment where
  domain_name : String
  status : DomainStatus := .NOT_STARTED
  current_difficulty : ℤ := 50
  questions_attempted : ℕ := 0
  questions_correct : ℕ := 0
  response_history : List QuestionResponse := []
  knowledge_gaps : List String := []
  mastery_areas : List String := []
  average_response_time : ℚ := 0
  confidence_score : ℚ := 0
deriving Repr, DecidableEq

/-! ## QuestionFlowManager (question_flow.py) -/

/-- Mutable state of `QuestionFlowManager` (question_flow.py lines 11-19).
The external `AIService` collaborator holds no controller state and is out
of the specified scope. -/
structure FlowState where
  current_domain_assessment : Option DomainAssessment
  difficulty_engine : Option DiffEngine
  confidence_metrics : Option QualityMetrics
  current_question : Option Question
  question_start_time : Option ℚ
  domain_progress : ℚ
deriving Repr, DecidableEq

/-- Source `QuestionFlowManager.__init__` (question_flow.py lines 12-19). -/
def FlowState.initial : FlowState :=
  ⟨none, none, none, none, none, 0⟩

/-- Source `start_domain_assessment` (question_flow.py lines 21-43): installs the
assessment, a fresh difficulty engine seeded from its current difficulty, a
fresh quality-metrics instance, resets progress and marks IN_PROGRESS. -/
def FlowState.start_domain_assessment (st : FlowState) (da : DomainAssessment) :
    FlowState :=
  { st with
    current_domain_assessment := some { da with status := .IN_PROGRESS },
    difficulty_engine := some (DiffEngine.init da.current_difficulty),
    confidence_metrics := some (QualityMetrics.init CONFIDENCE_HISTORY_SIZE),
    domain_progress := 0 }

/-- State effect of a successful `generate_question` (question_flow.py lines
45-67): the externally generated question becomes current and the clock is
started.  The external generation call itself is out of the specified scope;
on generation failure the source leaves the state unchanged. -/
def FlowState.provide_question (st : FlowState) (q : Question) (now : ℚ) :
    FlowState :=
  { st with current_question := some q, question_start_time := some now }

/-- Python list subscript `options[i]` totalised with `""` (the source only
subscripts with the generated question's correct index; a malformed index
would raise IndexError there). -/
def pyGetStr (l : List String) (i : ℤ) : String :=
  if 0 ≤ i then l.getD i.toNat "" else l.getD (l.length - (-i).toNat) ""

/-- Source `calculate_enhanced_progress_increment` (question_flow.py lines 160-200),
with the quality-metrics instance (already fed this round's data point)
passed explicitly; the source's early return for a missing instance is
handled by `submit_answer`'s guard. -/
def calculate_enhanced_progress_increment (roundFn : ℚ → ℚ)
    (cm : QualityMetrics) (is_correct : Bool) (confidence : ℚ)
    (difficulty : ℤ) (response_time : ℚ) : ℚ :=
  let base_increment := CORRECT_ANSWER_BASE_POINTS
  let increment :=
    if is_correct then
      let inc := base_increment
      let inc := inc + ((difficulty : ℚ) / 100) * DIFFICULTY_BONUS_MULTIPLIER * base_increment
      let inc := inc + confidence * CONFIDENCE_BONUS_MULTIPLIER * base_increment
      let quality_score := cm.get_confidence_quality_score roundFn
      let inc := inc + quality_score * (1 / 10) * base_increment
      let expected_time := EXPECTED_TIME_BASE + ((difficulty : ℚ) / 100) * 30
      if response_time < expected_time * TIME_BONUS_THRESHOLD then
        inc + (2 / 10) * base_increment
      else inc
    else
      if confidence < 4 / 10 then HONESTY_REWARD else 0
  let percentage_increment := (increment / (base_increment * MAX_QUESTIONS_PER_DOMAIN)) * 100
  min percentage_increment 20

/-- The `final_stats` dictionary that lines 262-272 of question_flow.py
would build.  Those lines are dead code — `complete_domain_assessment`
raises before reaching them (see below) — so no value of this type is ever
constructed; the type only gives the (always absent) `final_stats` slot of
`SubmitResult` its shape. -/
structure FinalStats where
  total_questions : ℕ
  correct_answers : ℕ
  accuracy : ℚ
  average_confidence : ℚ
  average_response_time : ℚ
  confidence_quality : ℚ
  final_difficulty : ℤ
  knowledge_gaps : ℕ
  mastery_areas : ℕ
deriving Repr, DecidableEq

/-- Outcome of a call to `complete_domain_assessment`: either the returned
`{"error": ...}` dictionary (missing assessment, question_flow.py line
242), or an uncaught Python exception.  The call can never return normally
(see `FlowState.complete_domain_assessment`), so there is no success
constructor.  A raised exception leaves the manager in its in-place mutated
state, carried by the `raised` constructor. -/
inductive CompleteOutcome where
  | errorDict : String → CompleteOutcome
  | raised : String → FlowState → CompleteOutcome
deriving Repr, DecidableEq

/-- Source `complete_domain_assessment` (question_flow.py lines 236-277).
Without an active assessment it returns an error dictionary (lines
241-242).  Otherwise it computes the final accuracy (lines 244-246, a pure
local computation) and then, at line 248, reads
`CONFIG["scoring"]["domain_mastered_score"]` — a key that config.py's
`CONFIG["scoring"]` (config.py lines 129-135) does not contain: the module
constants `DOMAIN_MASTERED_SCORE` / `DOMAIN_COMPLETED_SCORE` (config.py
lines 65-66) are never placed into the `CONFIG` dict, and nothing in the
repository mutates `CONFIG`.  The lookup therefore raises `KeyError` before
any classification or mutation of the assessment's status; lines 249-277
(classification, status assignment, statistics) are dead code.  The state
at the raise is the state the method was called on, unchanged. -/
def FlowState.complete_domain_assessment (st : FlowState) : CompleteOutcome :=
  match st.current_domain_assessment with
  | none => CompleteOutcome.errorDict "No active domain assessment"
  | some da =>
    let total_questions := da.questions_attempted
    let correct_answers := da.questions_correct
    let _accuracy : ℚ :=
      if 0 < total_questions then
        ((correct_answers : ℚ) / (total_questions : ℚ)) * 100
      else 0
    CompleteOutcome.raised "KeyError: domain_mastered_score" st

/-- The dictionary returned by `submit_answer` (question_flow.py lines
135-147).  The feedback string built by `generate_enhanced_answer_feedback`
is presentation text (out of the specified scope) and is not modelled.  The
`domain_status` and `final_stats` slots would only be filled by lines
152-153, which sit after the always-raising `complete_domain_assessment`
call and are dead code, so both stay `none` in every returned result. -/
structure SubmitResult where
  is_correct : Bool
  correct_answer : String
  explanation : String
  progress : ℚ
  confidence_quality : ℚ
  current_difficulty : ℚ
  domain_complete : Bool
  next_question : Option Question
  response_time : ℚ
  knowledge_tag : String
  domain_status : Option DomainStatus
  final_stats : Option FinalStats
deriving Repr, DecidableEq

/-- Outcome of a call to `submit_answer`: a normally returned result
dictionary, the returned `{"error": ...}` dictionary of the guard
(question_flow.py lines 80-81), or an uncaught Python exception.  Python
mutates the manager in place, so each constructor carries the manager
state observable after the call: unchanged for the guard's error
dictionary, fully updated for a normal return, and updated-up-to-the-raise
for an exception. -/
inductive SubmitOutcome where
  | ok : SubmitResult → FlowState → SubmitOutcome
  | errorDict : String → FlowState → SubmitOutcome
  | raised : String → FlowState → SubmitOutcome
deriving Repr, DecidableEq

/-- The manager state after the call (in-place mutation). -/
def SubmitOutcome.state : SubmitOutcome → FlowState
  | SubmitOutcome.ok _ s => s
  | SubmitOutcome.errorDict _ s => s
  | SubmitOutcome.raised _ s => s

/-- The returned result dictionary, when the call returned normally. -/
def SubmitOutcome.result? : SubmitOutcome → Option SubmitResult
  | SubmitOutcome.ok r _ => some r
  | SubmitOutcome.errorDict _ _ => none
  | SubmitOutcome.raised _ _ => none

/-- The uncaught exception, when one was raised. -/
def SubmitOutcome.exception? : SubmitOutcome → Option String
  | SubmitOutcome.ok _ _ => none
  | SubmitOutcome.errorDict _ _ => none
  | SubmitOutcome.raised e _ => some e

/-- Source `submit_answer` (question_flow.py lines 69-158): the full update
pipeline.  `now` is the wall-clock instant of the submission (the source
reads `time.time()`); the response time is the elapsed time since the
current question was issued, defaulting to 30 seconds without a start time.
When the updated progress reaches 100, line 150 calls
`complete_domain_assessment`, which raises `KeyError` (see above); the
exception propagates out of `submit_answer` uncaught, after every state
mutation of lines 95-129 has already been applied — the `raised` outcome
carries that mutated state.  (Were the call ever to return its error
dictionary instead — impossible here, the assessment is present — line 152
would read `completion_result["status"]` and raise `KeyError` too.)  Lines
151-153 are dead code, so a returned result always has
`domain_complete = false`.  The trailing `generate_question` call for an
unfinished domain only invokes the external generator and re-sets the
current question; its state effect is the separate
`FlowState.provide_question` step. -/
def FlowState.submit_answer (roundFn : ℚ → ℚ) (corrFn : List ℚ → List ℚ → ℚ)
    (st : FlowState) (answer_index : ℤ) (confidence : ℚ) (now : ℚ) :
    SubmitOutcome :=
  match st.current_question, st.current_domain_assessment,
        st.difficulty_engine, st.confidence_metrics with
  | some q, some da, some eng, some cm =>
    let response_time : ℚ :=
      match st.question_start_time with
      | some t0 => now - t0
      | none => 30
    let is_correct : Bool := answer_index = q.correct_answer_index
    let question_response : QuestionResponse := {
      question_id := da.domain_name ++ "_" ++ toString da.response_history.length,
      user_answer_index := answer_index,
      is_correct := is_correct,
      response_time := response_time,
      confidence_level := confidence,
      timestamp := now }
    let da1 := { da with
      response_history := da.response_history ++ [question_response],
      questions_attempted := da.questions_attempted + 1,
      questions_correct := da.questions_correct + (if is_correct then 1 else 0) }
    let system_confidence := eng.calculate_system_confidence is_correct response_time
    let cm1 := cm.add_data_point system_confidence is_correct
    let eng1 := eng.update_difficulty roundFn corrFn is_correct response_time system_confidence
    let da2 := { da1 with current_difficulty := pyInt eng1.current_difficulty }
    let progress_increment := calculate_enhanced_progress_increment roundFn cm1
      is_correct system_confidence q.difficulty_level response_time
    let progress1 := min 100 (st.domain_progress + progress_increment)
    -- question_flow.py lines 117-124: an incorrect answer records the tag
    -- among the gaps, a correct one among the mastery areas (each list kept
    -- duplicate-free); stated per field to keep the branch at the leaves
    let da3 := { da2 with
      knowledge_gaps :=
        if is_correct then da2.knowledge_gaps
        else if q.knowledge_tag ∈ da2.knowledge_gaps then da2.knowledge_gaps
        else da2.knowledge_gaps ++ [q.knowledge_tag],
      mastery_areas :=
        if is_correct then
          (if q.knowledge_tag ∈ da2.mastery_areas then da2.mastery_areas
           else da2.mastery_areas ++ [q.knowledge_tag])
        else da2.mastery_areas }
    let total_time := (da3.response_history.map (fun r => r.response_time)).sum
    let da4 := { da3 with
      average_response_time := total_time / (da3.response_history.length : ℚ),
      confidence_score := cm1.get_confidence_quality_score roundFn }
    let st1 := { st with
      current_domain_assessment := some da4,
      difficulty_engine := some eng1,
      confidence_metrics := some cm1,
      domain_progress := progress1 }
    let base_result : SubmitResult := {
      is_correct := is_correct,
      correct_answer := pyGetStr q.options q.correct_answer_index,
      explanation := q.explanation,
      progress := progress1,
      confidence_quality := cm1.get_confidence_quality_score roundFn,
      current_difficulty := eng1.current_difficulty,
      domain_complete := false,
      next_question := none,
      response_time := response_time,
      knowledge_tag := q.knowledge_tag,
      domain_status := none,
      final_stats := none }
    if 100 ≤ progress1 then
      match st1.complete_domain_assessment with
      | CompleteOutcome.raised e st2 => SubmitOutcome.raised e st2
      | CompleteOutcome.errorDict _ =>
        -- unreachable (st1 carries an assessment); the source would next
        -- raise at line 152 reading completion_result["status"]
        SubmitOutcome.raised "KeyError: status" st1
    else
      SubmitOutcome.ok base_result st1
  | _, _, _, _ => SubmitOutcome.errorDict "No active question or assessment" st

/-- One full round as the orchestration layer drives it: the externally
generated question is issued at `ask_time`, the user answers `answer_index`
with the given confidence at `answer_time`. -/
structure RoundInput where
  question : Question
  ask_time : ℚ
  answer_index : ℤ
  confidence : ℚ
  answer_time : ℚ
deriving Repr, DecidableEq

/-- Run one round: issue the question, then submit the answer.  The manager
state the orchestration observes afterwards is the in-place mutated state
whatever the outcome: unchanged on the guard's error dictionary, updated on
a normal return, and updated-up-to-the-raise on an uncaught exception. -/
def FlowState.runRound (roundFn : ℚ → ℚ) (corrFn : List ℚ → List ℚ → ℚ)
    (st : FlowState) (r : RoundInput) : FlowState :=
  let st1 := st.provide_question r.question r.ask_time
  (st1.submit_answer roundFn corrFn r.answer_index r.confidence r.answer_time).state

/-- Run a chronological sequence of rounds. -/
def FlowState.runRounds (roundFn : ℚ → ℚ) (corrFn : List ℚ → List ℚ → ℚ)
    (st : FlowState) (rs : List RoundInput) : FlowState :=
  rs.foldl (fun acc r => acc.runRound roundFn corrFn r) st

/-! ## Theorems -/

/-- Clamping into `[lo, hi]` lands in `[lo, hi]`. -/
lemma clamp_mem (lo hi x : ℚ) (h : lo ≤ hi) :
    lo ≤ max lo (min hi x) ∧ max lo (min hi x) ≤ hi :=
  ⟨le_max_left _ _, max_le h (min_le_left _ _)⟩

/-- One `update_difficulty` call leaves the difficulty inside [1, 100],
whatever the prior state and the inputs. -/
lemma DiffEngine.update_difficulty_mem (roundFn : ℚ → ℚ)
    (corrFn : List ℚ → List ℚ → ℚ) (e : DiffEngine) (b : Bool) (t c : ℚ) :
    1 ≤ (e.update_difficulty roundFn corrFn b t c).current_difficulty ∧
      (e.update_difficulty roundFn corrFn b t c).current_difficulty ≤ 100 := by
  unfold DiffEngine.update_difficulty
  exact clamp_mem 1 100 _ (by norm_num)

/-- A nonempty sequence of updates ends inside [1, 100]. -/
lemma DiffEngine.runUpdates_mem (roundFn : ℚ → ℚ)
    (corrFn : List ℚ → List ℚ → ℚ) :
    ∀ (inputs : List (Bool × ℚ × ℚ)) (e : DiffEngine), inputs ≠ [] →
      1 ≤ (e.runUpdates roundFn corrFn inputs).current_difficulty ∧
        (e.runUpdates roundFn corrFn inputs).current_difficulty ≤ 100 := by
  intro inputs
  induction inputs with
  | nil => intro e h; exact absurd rfl h
  | cons x xs ih =>
    intro e _
    rcases xs with _ | ⟨y, ys⟩
    · simp only [DiffEngine.runUpdates, List.foldl_cons, List.foldl_nil]
      exact DiffEngine.update_difficulty_mem roundFn corrFn e x.1 x.2.1 x.2.2
    · have h2 : y :: ys ≠ ([] : List (Bool × ℚ × ℚ)) := by simp
      have := ih (e.update_difficulty roundFn corrFn x.1 x.2.1 x.2.2) h2
      simpa [DiffEngine.runUpdates, List.foldl_cons] using this

/-- Claim C1: along every sequence of `update_difficulty` calls (any
correctness flags, response times and confidences, and any rounding and
correlation functions), the difficulty after each call stays within
[1, 100], and the total adjustment returned by
`calculate_enhanced_adjustment` for any single call lies within
[-15, +15]. -/
theorem difficulty_and_adjustment_bounded (roundFn : ℚ → ℚ)
    (corrFn : List ℚ → List ℚ → ℚ) (e : DiffEngine)
    (inputs : List (Bool × ℚ × ℚ)) (i : ℕ) (hi : i < inputs.length)
    (e2 : DiffEngine) (b : Bool) (t c : ℚ) :
    (1 ≤ (e.runUpdates roundFn corrFn (inputs.take (i + 1))).current_difficulty ∧
      (e.runUpdates roundFn corrFn (inputs.take (i + 1))).current_difficulty ≤ 100) ∧
    (-15 ≤ (e2.calculate_enhanced_adjustment roundFn corrFn b t c).1 ∧
      (e2.calculate_enhanced_adjustment roundFn corrFn b t c).1 ≤ 15) := by
  constructor
  · apply DiffEngine.runUpdates_mem
    intro hnil
    rw [List.take_eq_nil_iff] at hnil
    rcases hnil with h | h
    · exact Nat.succ_ne_zero i h
    · rw [h] at hi; exact absurd hi (by simp)
  · unfold DiffEngine.calculate_enhanced_adjustment
    have : (-15 : ℚ) ≤ 15 := by norm_num
    exact ⟨le_max_left _ _, max_le (by norm_num) (min_le_left _ _)⟩

/-- Witness for `difficulty_and_adjustment_bounded` at a concrete trace. -/
theorem difficulty_and_adjustment_bounded_witness :
    (0 : ℕ) < [(true, (10 : ℚ), (1 : ℚ) / 2)].length ∧
    ((1 ≤ ((DiffEngine.init 50).runUpdates pyRound1 zeroCorr
        ([(true, (10 : ℚ), (1 : ℚ) / 2)].take (0 + 1))).current_difficulty ∧
      ((DiffEngine.init 50).runUpdates pyRound1 zeroCorr
        ([(true, (10 : ℚ), (1 : ℚ) / 2)].take (0 + 1))).current_difficulty ≤ 100) ∧
    (-15 ≤ ((DiffEngine.init 60).calculate_enhanced_adjustment pyRound1 zeroCorr
        true 10 (1 / 2)).1 ∧
      ((DiffEngine.init 60).calculate_enhanced_adjustment pyRound1 zeroCorr
        true 10 (1 / 2)).1 ≤ 15)) :=
  ⟨by norm_num,
   difficulty_and_adjustment_bounded pyRound1 zeroCorr (DiffEngine.init 50)
     [(true, 10, 1 / 2)] 0 (by norm_num) (DiffEngine.init 60) true 10 (1 / 2)⟩

/-- The repeated submission of the saturation example: correct answer, 10
seconds, confidence 0.9, `n` times in a row. -/
def identicalCorrectFast (n : ℕ) : List (Bool × ℚ × ℚ) :=
  List.replicate n (true, 10, 9 / 10)

set_option maxHeartbeats 4000000 in
/-- Counterexample to claim C9: from difficulty 50 with empty history, five
identical (correct, 10 s, confidence 0.9) updates leave the difficulty at
96.613726 — strictly below 100, so the difficulty has not reached 100 after
the first update plus 4 identical ones. -/
theorem five_identical_updates_fall_short_of_100 :
    ((DiffEngine.init 50).runUpdates pyRound1 zeroCorr
        (identicalCorrectFast 5)).current_difficulty = 48306863 / 500000 ∧
      (48306863 / 500000 : ℚ) < 100 := by
  constructor
  · norm_num [identicalCorrectFast, DiffEngine.runUpdates, DiffEngine.update_difficulty,
      DiffEngine.calculate_enhanced_adjustment, DiffEngine.calculate_time_impact,
      DiffEngine.calculate_stability_factor, DiffEngine.init, EnhConfEngine.init,
      EnhConfEngine.calculate_confidence_impact, EnhConfEngine.update_correlation,
      EnhConfEngine.calculate_comprehensive_impact, CalibEngine.init,
      CalibEngine.update_calibration, CalibEngine.calculate_calibration_curve,
      CalibEngine.get_calibrated_confidence, CalibEngine.interpolate_confidence,
      sortKeys, curveGet, buildCurve, dedupKeys, countTrue, countChanges, interpScan,
      insertSorted, pyInt, pyRound1, zeroCorr, List.replicate, min_def, max_def]
  · norm_num

set_option maxHeartbeats 8000000 in
/-- Claim C9 (amended): from difficulty 50 with empty history, one update
with (correct, 10 s, confidence 0.9) strictly increases the difficulty above
50; after 5 more identical updates (6 in total) the difficulty reaches
exactly 100, and a 7th identical update leaves it at 100, never out of
range.  This holds for every rounding and correlation function: the 7
samples stay below the 10 at which the source first builds a calibration
curve or computes a correlation. -/
theorem six_identical_updates_saturate_difficulty (roundFn : ℚ → ℚ)
    (corrFn : List ℚ → List ℚ → ℚ) :
    50 < ((DiffEngine.init 50).runUpdates roundFn corrFn
        (identicalCorrectFast 1)).current_difficulty ∧
    ((DiffEngine.init 50).runUpdates roundFn corrFn
        (identicalCorrectFast 6)).current_difficulty = 100 ∧
    ((DiffEngine.init 50).runUpdates roundFn corrFn
        (identicalCorrectFast 7)).current_difficulty = 100 := by
  refine ⟨?_, ?_, ?_⟩ <;>
    norm_num [identicalCorrectFast, DiffEngine.runUpdates, DiffEngine.update_difficulty,
      DiffEngine.calculate_enhanced_adjustment, DiffEngine.calculate_time_impact,
      DiffEngine.calculate_stability_factor, DiffEngine.init, EnhConfEngine.init,
      EnhConfEngine.calculate_confidence_impact, EnhConfEngine.update_correlation,
      EnhConfEngine.calculate_comprehensive_impact, CalibEngine.init,
      CalibEngine.update_calibration, CalibEngine.calculate_calibration_curve,
      CalibEngine.get_calibrated_confidence, CalibEngine.interpolate_confidence,
      sortKeys, curveGet, buildCurve, dedupKeys, countTrue, countChanges, interpScan,
      insertSorted, pyInt, zeroCorr, List.replicate, min_def, max_def]

/-- Claim C4, what the code actually does at the failing input: for every
state with an active assessment, `complete_domain_assessment` raises
`KeyError` on the missing `CONFIG["scoring"]["domain_mastered_score"]` key
before any classification, leaving the state — in particular the
assessment's status — unchanged.  The MASTERED/COMPLETED/STRUGGLING
classification the claim (and the function's own docstring, and the unused
`DOMAIN_MASTERED_SCORE`/`DOMAIN_COMPLETED_SCORE` constants of config.py)
describe is dead code and never happens. -/
theorem domain_classification_never_happens (st : FlowState)
    (da : DomainAssessment) (h : st.current_domain_assessment = some da) :
    st.complete_domain_assessment =
      CompleteOutcome.raised "KeyError: domain_mastered_score" st := by
  obtain ⟨oda, oeng, ocm, oq, ot, prog⟩ := st
  obtain rfl : oda = some da := h
  rfl

/-- The failing input for the classification claim: a finished-looking
domain (10 attempted, 9 correct, progress 100) about to be classified. -/
def classificationInput : FlowState :=
  { current_domain_assessment := some
      { domain_name := "Control Structures", status := .IN_PROGRESS,
        questions_attempted := 10, questions_correct := 9 },
    difficulty_engine := none, confidence_metrics := none,
    current_question := none, question_start_time := none,
    domain_progress := 100 }

/-- Witness for `domain_classification_never_happens` at the spec's own
example input (10 attempted, 9 correct, progress 100): instead of the
claimed MASTERED classification, the call raises. -/
theorem domain_classification_never_happens_witness :
    classificationInput.current_domain_assessment =
      some { domain_name := "Control Structures", status := .IN_PROGRESS,
             questions_attempted := 10, questions_correct := 9 } ∧
    classificationInput.complete_domain_assessment =
      CompleteOutcome.raised "KeyError: domain_mastered_score"
        classificationInput :=
  ⟨rfl, domain_classification_never_happens _ _ rfl⟩

/-- Claim C8: for an incorrect answer the progress increment is 0 unless
the confidence used is below 0.4, in which case the increment is exactly
the configured honesty reward — normalised to percentage points as every
increment is, with no base points; in particular confidence 0.2 yields
the honesty reward only. -/
theorem incorrect_increment_is_honesty_reward_only (roundFn : ℚ → ℚ)
    (cm : QualityMetrics) (confidence : ℚ) (difficulty : ℤ)
    (response_time : ℚ) :
    (4 / 10 ≤ confidence →
      calculate_enhanced_progress_increment roundFn cm false confidence
        difficulty response_time = 0) ∧
    (confidence < 4 / 10 →
      calculate_enhanced_progress_increment roundFn cm false confidence
        difficulty response_time =
      (HONESTY_REWARD / (CORRECT_ANSWER_BASE_POINTS * MAX_QUESTIONS_PER_DOMAIN)) * 100) ∧
    calculate_enhanced_progress_increment roundFn cm false (2 / 10)
        difficulty response_time =
      (HONESTY_REWARD / (CORRECT_ANSWER_BASE_POINTS * MAX_QUESTIONS_PER_DOMAIN)) * 100 := by
  refine ⟨fun hc => ?_, fun hc => ?_, ?_⟩
  · rw [calculate_enhanced_progress_increment]
    rw [if_neg (by exact Bool.false_ne_true), if_neg (not_lt.mpr hc)]
    norm_num [CORRECT_ANSWER_BASE_POINTS, MAX_QUESTIONS_PER_DOMAIN]
  · rw [calculate_enhanced_progress_increment]
    rw [if_neg (by exact Bool.false_ne_true), if_pos hc]
    norm_num [CORRECT_ANSWER_BASE_POINTS, MAX_QUESTIONS_PER_DOMAIN, HONESTY_REWARD,
      min_def]
  · rw [calculate_enhanced_progress_increment]
    rw [if_neg (by exact Bool.false_ne_true), if_pos (by norm_num)]
    norm_num [CORRECT_ANSWER_BASE_POINTS, MAX_QUESTIONS_PER_DOMAIN, HONESTY_REWARD,
      min_def]

/-- Witness for `incorrect_increment_is_honesty_reward_only` at concrete
confidences 0.5 (no reward) and 0.2 (honesty reward only). -/
theorem incorrect_increment_is_honesty_reward_only_witness :
    calculate_enhanced_progress_increment pyRound1 (QualityMetrics.init 100)
        false (1 / 2) 50 10 = 0 ∧
    calculate_enhanced_progress_increment pyRound1 (QualityMetrics.init 100)
        false (1 / 5) 50 10 =
      (HONESTY_REWARD / (CORRECT_ANSWER_BASE_POINTS * MAX_QUESTIONS_PER_DOMAIN)) * 100 :=
  ⟨(incorrect_increment_is_honesty_reward_only pyRound1 (QualityMetrics.init 100)
      (1 / 2) 50 10).1 (by norm_num),
   (incorrect_increment_is_honesty_reward_only pyRound1 (QualityMetrics.init 100)
      (1 / 5) 50 10).2.1 (by norm_num)⟩

/-- An engine as built by the class API: a fresh
`ConfidenceCalibrationEngine(history_size)` fed a chronological list of
`update_calibration(confidence, is_correct)` calls. -/
def CalibEngine.fromUpdates (roundFn : ℚ → ℚ) (size : ℕ)
    (updates : List (ℚ × Bool)) : CalibEngine :=
  updates.foldl (fun e u => e.update_calibration roundFn u.1 u.2)
    (CalibEngine.init size)

/-- One update preserves "empty curve or at least 10 samples": the curve is
only ever rebuilt once the history reaches 10 entries, and the history
length never shrinks. -/
lemma CalibEngine.update_calibration_inv (roundFn : ℚ → ℚ) (e : CalibEngine)
    (c : ℚ) (b : Bool)
    (h : e.calibration_curve = [] ∨ 10 ≤ e.confidence_accuracy_pairs.length) :
    (e.update_calibration roundFn c b).calibration_curve = [] ∨
      10 ≤ (e.update_calibration roundFn c b).confidence_accuracy_pairs.length := by
  simp only [CalibEngine.update_calibration, CalibEngine.calculate_calibration_curve]
  split_ifs with h1 h2 h3
  · -- evicting; below 10 samples afterwards
    rcases h with hc | hlen
    · exact Or.inl hc
    · exfalso
      simp only [List.length_drop, List.length_append, List.length_cons,
        List.length_nil] at h2
      omega
  · exact Or.inr (by simpa using le_of_not_lt h2)
  · rcases h with hc | hlen
    · exact Or.inl hc
    · exfalso
      simp only [List.length_append, List.length_cons, List.length_nil] at h3
      omega
  · exact Or.inr (by simpa using le_of_not_lt h3)

/-- Every engine reachable from a fresh one has an empty curve until its
history holds 10 samples. -/
lemma CalibEngine.fromUpdates_inv (roundFn : ℚ → ℚ) (size : ℕ)
    (updates : List (ℚ × Bool)) :
    (CalibEngine.fromUpdates roundFn size updates).calibration_curve = [] ∨
      10 ≤ (CalibEngine.fromUpdates roundFn size updates).confidence_accuracy_pairs.length := by
  suffices hgen : ∀ (l : List (ℚ × Bool)) (e : CalibEngine),
      (e.calibration_curve = [] ∨ 10 ≤ e.confidence_accuracy_pairs.length) →
      ((l.foldl (fun e u => e.update_calibration roundFn u.1 u.2) e).calibration_curve = [] ∨
        10 ≤ (l.foldl (fun e u => e.update_calibration roundFn u.1 u.2) e).confidence_accuracy_pairs.length) by
    exact hgen updates (CalibEngine.init size) (Or.inl rfl)
  intro l
  induction l with
  | nil => intro e h; exact h
  | cons x xs ih =>
    intro e h
    exact ih _ (CalibEngine.update_calibration_inv roundFn e x.1 x.2 h)

/-- With an empty calibration curve, `get_calibrated_confidence` returns the
raw confidence unchanged. -/
lemma CalibEngine.get_calibrated_empty (roundFn : ℚ → ℚ) (e : CalibEngine)
    (h : e.calibration_curve = []) (raw : ℚ) :
    e.get_calibrated_confidence roundFn raw = raw := by
  simp [CalibEngine.get_calibrated_confidence, CalibEngine.interpolate_confidence,
    h, sortKeys]

/-- Claim C7: an engine built by any sequence of updates whose history still
holds fewer than 10 samples returns every raw confidence unchanged from
`get_calibrated_confidence`; and a confidence bin contributes an entry to
the calibration curve only if it holds at least 3 samples. -/
theorem calibration_needs_samples (roundFn : ℚ → ℚ) (size : ℕ)
    (updates : List (ℚ × Bool)) (raw : ℚ) (pairs : List (ℚ × Bool)) (k v : ℚ) :
    ((CalibEngine.fromUpdates roundFn size updates).confidence_accuracy_pairs.length < 10 →
      (CalibEngine.fromUpdates roundFn size updates).get_calibrated_confidence roundFn raw = raw) ∧
    ((k, v) ∈ buildCurve roundFn pairs →
      3 ≤ (pairs.filter (fun p => roundFn p.1 = k)).length) := by
  constructor
  · intro hlen
    rcases CalibEngine.fromUpdates_inv roundFn size updates with hc | hge
    · exact CalibEngine.get_calibrated_empty roundFn _ hc raw
    · omega
  · intro hmem
    simp only [buildCurve, List.mem_filterMap] at hmem
    obtain ⟨k0, _, hsome⟩ := hmem
    split_ifs at hsome with h3
    simp only [Option.some_inj, Prod.mk.injEq] at hsome
    obtain ⟨hk, _⟩ := hsome
    rw [List.length_map] at h3
    rwa [hk] at h3

/-- Witness for `calibration_needs_samples`: one update leaves a single
sample (< 10), so raw confidence 0.37 comes back unchanged; and the curve
built from three same-bin samples has a bin backed by 3 samples. -/
theorem calibration_needs_samples_witness :
    ((CalibEngine.fromUpdates pyRound1 100 [(1 / 2, true)]).confidence_accuracy_pairs.length < 10 ∧
      (CalibEngine.fromUpdates pyRound1 100 [(1 / 2, true)]).get_calibrated_confidence
        pyRound1 (37 / 100) = 37 / 100) ∧
    ((1 / 2, 2 / 3) ∈ buildCurve pyRound1 [(1 / 2, true), (1 / 2, true), (1 / 2, false)] ∧
      3 ≤ ([(1 / 2, true), (1 / 2, true), ((1 : ℚ) / 2, false)].filter
        (fun p => pyRound1 p.1 = 1 / 2)).length) := by
  have hlen : (CalibEngine.fromUpdates pyRound1 100 [(1 / 2, true)]).confidence_accuracy_pairs.length < 10 := by
    norm_num [CalibEngine.fromUpdates, CalibEngine.init, CalibEngine.update_calibration,
      CalibEngine.calculate_calibration_curve]
  have hmem : ((1 : ℚ) / 2, (2 : ℚ) / 3) ∈
      buildCurve pyRound1 [(1 / 2, true), (1 / 2, true), (1 / 2, false)] := by
    norm_num [buildCurve, dedupKeys, countTrue, pyRound1]
  exact ⟨⟨hlen, (calibration_needs_samples pyRound1 100 [(1 / 2, true)] (37 / 100)
      [(1 / 2, true), (1 / 2, true), (1 / 2, false)] (1 / 2) (2 / 3)).1 hlen⟩,
    ⟨hmem, (calibration_needs_samples pyRound1 100 [(1 / 2, true)] (37 / 100)
      [(1 / 2, true), (1 / 2, true), (1 / 2, false)] (1 / 2) (2 / 3)).2 hmem⟩⟩

/-- The quality score always lies in [0, 1] (neutral 0.5 below 10 samples,
clamped blend otherwise). -/
lemma QualityMetrics.quality_score_mem (roundFn : ℚ → ℚ) (m : QualityMetrics) :
    0 ≤ m.get_confidence_quality_score roundFn ∧
      m.get_confidence_quality_score roundFn ≤ 1 := by
  unfold QualityMetrics.get_confidence_quality_score
  split_ifs
  · norm_num
  · exact ⟨le_max_left _ _, max_le (by norm_num) (min_le_left _ _)⟩

/-- The system-computed confidence always lies in [0.1, 0.9]. -/
lemma DiffEngine.system_confidence_mem (e : DiffEngine) (b : Bool) (t : ℚ) :
    1 / 10 ≤ e.calculate_system_confidence b t ∧
      e.calculate_system_confidence b t ≤ 9 / 10 := by
  unfold DiffEngine.calculate_system_confidence
  exact ⟨le_max_left _ _, max_le (by norm_num) (min_le_left _ _)⟩

/-- For a nonnegative confidence and a nonnegative question difficulty, the
progress increment lies in [0, 20]. -/
lemma progress_increment_mem (roundFn : ℚ → ℚ) (cm : QualityMetrics)
    (b : Bool) (conf : ℚ) (d : ℤ) (t : ℚ) (hconf : 0 ≤ conf) (hd : 0 ≤ d) :
    0 ≤ calculate_enhanced_progress_increment roundFn cm b conf d t ∧
      calculate_enhanced_progress_increment roundFn cm b conf d t ≤ 20 := by
  constructor
  · unfold calculate_enhanced_progress_increment
    apply le_min _ (by norm_num)
    have hdq : (0 : ℚ) ≤ (d : ℚ) := by exact_mod_cast hd
    have hq := (QualityMetrics.quality_score_mem roundFn cm).1
    cases b with
    | false =>
      simp only [Bool.false_eq_true, if_false]
      split_ifs <;>
        norm_num [HONESTY_REWARD, CORRECT_ANSWER_BASE_POINTS, MAX_QUESTIONS_PER_DOMAIN]
    | true =>
      simp only [if_true]
      split_ifs <;>
        (norm_num [CORRECT_ANSWER_BASE_POINTS, MAX_QUESTIONS_PER_DOMAIN,
          DIFFICULTY_BONUS_MULTIPLIER, CONFIDENCE_BONUS_MULTIPLIER]; linarith)
  · unfold calculate_enhanced_progress_increment
    exact min_le_right _ _

set_option maxHeartbeats 1000000 in
/-- What `submit_answer` does to the domain progress: on a normal return
and equally on the completion-path `KeyError` raise (whose state mutations
precede the raise), it has added an increment in [0, 20] (computed by
`calculate_enhanced_progress_increment`) and capped at 100, provided the
current question's difficulty is nonnegative; the guard's error dictionary
leaves the progress unchanged. -/
lemma FlowState.submit_answer_progress (roundFn : ℚ → ℚ)
    (corrFn : List ℚ → List ℚ → ℚ) (st : FlowState) (idx : ℤ)
    (conf now : ℚ)
    (hd : ∀ q, st.current_question = some q → 0 ≤ q.difficulty_level) :
    match st.submit_answer roundFn corrFn idx conf now with
    | SubmitOutcome.ok _ s2 => ∃ inc, 0 ≤ inc ∧ inc ≤ 20 ∧
        s2.domain_progress = min 100 (st.domain_progress + inc)
    | SubmitOutcome.errorDict _ s2 => s2.domain_progress = st.domain_progress
    | SubmitOutcome.raised _ s2 => ∃ inc, 0 ≤ inc ∧ inc ≤ 20 ∧
        s2.domain_progress = min 100 (st.domain_progress + inc) := by
  obtain ⟨oda, oeng, ocm, oq, ot, prog⟩ := st
  rcases oq with _ | q
  · simp [FlowState.submit_answer]
  rcases oda with _ | da
  · simp [FlowState.submit_answer]
  rcases oeng with _ | eng
  · simp [FlowState.submit_answer]
  rcases ocm with _ | cm
  · simp [FlowState.submit_answer]
  have hd' : 0 ≤ q.difficulty_level := hd q rfl
  have hc0 : ∀ (b : Bool) (t : ℚ), (0 : ℚ) ≤ eng.calculate_system_confidence b t :=
    fun b t => le_trans (by norm_num) (DiffEngine.system_confidence_mem eng b t).1
  rcases ot with _ | t0
  · simp only [FlowState.submit_answer]
    have hb := progress_increment_mem roundFn
      (cm.add_data_point (eng.calculate_system_confidence
        (decide (idx = q.correct_answer_index)) 30) (decide (idx = q.correct_answer_index)))
      (decide (idx = q.correct_answer_index))
      (eng.calculate_system_confidence (decide (idx = q.correct_answer_index)) 30)
      q.difficulty_level 30 (hc0 _ _) hd'
    generalize hInc : calculate_enhanced_progress_increment roundFn
      (cm.add_data_point (eng.calculate_system_confidence
        (decide (idx = q.correct_answer_index)) 30) (decide (idx = q.correct_answer_index)))
      (decide (idx = q.correct_answer_index))
      (eng.calculate_system_confidence (decide (idx = q.correct_answer_index)) 30)
      q.difficulty_level 30 = inc
    rw [hInc] at hb
    split
    · rename_i r s2 heq
      split at heq
      · simp only [FlowState.complete_domain_assessment] at heq
        simp at heq
      · cases heq
        exact ⟨inc, hb.1, hb.2, rfl⟩
    · rename_i e s2 heq
      split at heq
      · simp only [FlowState.complete_domain_assessment] at heq
        simp at heq
      · simp at heq
    · rename_i e s2 heq
      split at heq
      · simp only [FlowState.complete_domain_assessment] at heq
        cases heq
        exact ⟨inc, hb.1, hb.2, rfl⟩
      · simp at heq
  · simp only [FlowState.submit_answer]
    have hb := progress_increment_mem roundFn
      (cm.add_data_point (eng.calculate_system_confidence
        (decide (idx = q.correct_answer_index)) (now - t0)) (decide (idx = q.correct_answer_index)))
      (decide (idx = q.correct_answer_index))
      (eng.calculate_system_confidence (decide (idx = q.correct_answer_index)) (now - t0))
      q.difficulty_level (now - t0) (hc0 _ _) hd'
    generalize hInc : calculate_enhanced_progress_increment roundFn
      (cm.add_data_point (eng.calculate_system_confidence
        (decide (idx = q.correct_answer_index)) (now - t0)) (decide (idx = q.correct_answer_index)))
      (decide (idx = q.correct_answer_index))
      (eng.calculate_system_confidence (decide (idx = q.correct_answer_index)) (now - t0))
      q.difficulty_level (now - t0) = inc
    rw [hInc] at hb
    split
    · rename_i r s2 heq
      split at heq
      · simp only [FlowState.complete_domain_assessment] at heq
        simp at heq
      · cases heq
        exact ⟨inc, hb.1, hb.2, rfl⟩
    · rename_i e s2 heq
      split at heq
      · simp only [FlowState.complete_domain_assessment] at heq
        simp at heq
      · simp at heq
    · rename_i e s2 heq
      split at heq
      · simp only [FlowState.complete_domain_assessment] at heq
        cases heq
        exact ⟨inc, hb.1, hb.2, rfl⟩
      · simp at heq

/-- One round never decreases the progress, adds at most 20 points, and
keeps it inside [0, 100] — also across the completion-path raise, whose
progress mutation precedes the raise. -/
lemma FlowState.runRound_progress (roundFn : ℚ → ℚ)
    (corrFn : List ℚ → List ℚ → ℚ) (st : FlowState) (r : RoundInput)
    (h0 : 0 ≤ st.domain_progress) (h100 : st.domain_progress ≤ 100)
    (hd : 0 ≤ r.question.difficulty_level) :
    st.domain_progress ≤ (st.runRound roundFn corrFn r).domain_progress ∧
    (st.runRound roundFn corrFn r).domain_progress ≤ st.domain_progress + 20 ∧
    0 ≤ (st.runRound roundFn corrFn r).domain_progress ∧
    (st.runRound roundFn corrFn r).domain_progress ≤ 100 := by
  have hsub := FlowState.submit_answer_progress roundFn corrFn
    (st.provide_question r.question r.ask_time) r.answer_index r.confidence
    r.answer_time
    (by intro q2 hq
        have hq2 : r.question = q2 := Option.some.inj hq
        exact hq2 ▸ hd)
  simp only [FlowState.runRound]
  cases hres : (st.provide_question r.question r.ask_time).submit_answer
      roundFn corrFn r.answer_index r.confidence r.answer_time with
  | ok rr s2 =>
    rw [hres] at hsub
    obtain ⟨inc, hi0, hi20, hp⟩ := hsub
    have hp2 : s2.domain_progress = min 100 (st.domain_progress + inc) := hp
    simp only [hres, SubmitOutcome.state]
    rw [hp2]
    exact ⟨le_min h100 (by linarith), le_trans (min_le_right _ _) (by linarith),
      le_min (by norm_num) (by linarith), min_le_left _ _⟩
  | errorDict e s2 =>
    rw [hres] at hsub
    have hp2 : s2.domain_progress = st.domain_progress := hsub
    simp only [hres, SubmitOutcome.state]
    rw [hp2]
    exact ⟨le_refl _, by linarith, h0, h100⟩
  | raised e s2 =>
    rw [hres] at hsub
    obtain ⟨inc, hi0, hi20, hp⟩ := hsub
    have hp2 : s2.domain_progress = min 100 (st.domain_progress + inc) := hp
    simp only [hres, SubmitOutcome.state]
    rw [hp2]
    exact ⟨le_min h100 (by linarith), le_trans (min_le_right _ _) (by linarith),
      le_min (by norm_num) (by linarith), min_le_left _ _⟩

/-- Along any sequence of rounds the progress stays inside [0, 100]. -/
lemma FlowState.runRounds_progress_mem (roundFn : ℚ → ℚ)
    (corrFn : List ℚ → List ℚ → ℚ) :
    ∀ (rs : List RoundInput) (st : FlowState),
      0 ≤ st.domain_progress → st.domain_progress ≤ 100 →
      (∀ r ∈ rs, 0 ≤ r.question.difficulty_level) →
      0 ≤ (st.runRounds roundFn corrFn rs).domain_progress ∧
        (st.runRounds roundFn corrFn rs).domain_progress ≤ 100 := by
  intro rs
  induction rs with
  | nil => intro st h0 h1 _; exact ⟨h0, h1⟩
  | cons r rs ih =>
    intro st h0 h1 hd
    have hstep := FlowState.runRound_progress roundFn corrFn st r h0 h1
      (hd r (by simp))
    have := ih (st.runRound roundFn corrFn r) hstep.2.2.1 hstep.2.2.2
      (fun x hx => hd x (by simp [hx]))
    simpa [FlowState.runRounds, List.foldl_cons] using this

/-- Claim C3: starting a domain assessment and submitting any sequence of
answers (to questions with nonnegative difficulty), the domain progress is
monotonically non-decreasing step by step, gains at most 20 percentage
points per answered question, and never exceeds 100. -/
theorem domain_progress_monotone_and_bounded (roundFn : ℚ → ℚ)
    (corrFn : List ℚ → List ℚ → ℚ) (da : DomainAssessment)
    (rounds : List RoundInput)
    (hd : ∀ r ∈ rounds, 0 ≤ r.question.difficulty_level)
    (i : ℕ) (hi : i < rounds.length) :
    ((FlowState.initial.start_domain_assessment da).runRounds roundFn corrFn
        (rounds.take i)).domain_progress ≤
      ((FlowState.initial.start_domain_assessment da).runRounds roundFn corrFn
        (rounds.take (i + 1))).domain_progress ∧
    ((FlowState.initial.start_domain_assessment da).runRounds roundFn corrFn
        (rounds.take (i + 1))).domain_progress ≤
      ((FlowState.initial.start_domain_assessment da).runRounds roundFn corrFn
        (rounds.take i)).domain_progress + 20 ∧
    ((FlowState.initial.start_domain_assessment da).runRounds roundFn corrFn
        (rounds.take (i + 1))).domain_progress ≤ 100 := by
  have hmem := FlowState.runRounds_progress_mem roundFn corrFn (rounds.take i)
    (FlowState.initial.start_domain_assessment da) (le_refl 0)
    (by show (0 : ℚ) ≤ 100; norm_num)
    (fun r hr => hd r (List.take_subset i rounds hr))
  have htake : rounds.take (i + 1) = rounds.take i ++ [rounds.get ⟨i, hi⟩] := by
    rw [List.take_succ]
    simp [List.getElem?_eq_getElem hi]
  have hrr : (FlowState.initial.start_domain_assessment da).runRounds roundFn corrFn
      (rounds.take (i + 1)) =
      ((FlowState.initial.start_domain_assessment da).runRounds roundFn corrFn
        (rounds.take i)).runRound roundFn corrFn (rounds.get ⟨i, hi⟩) := by
    rw [htake]
    simp only [FlowState.runRounds, List.foldl_append, List.foldl_cons, List.foldl_nil]
  have hstep := FlowState.runRound_progress roundFn corrFn
    ((FlowState.initial.start_domain_assessment da).runRounds roundFn corrFn
      (rounds.take i)) (rounds.get ⟨i, hi⟩)
    hmem.1 hmem.2 (hd _ (List.get_mem rounds i hi))
  rw [hrr]
  exact ⟨hstep.1, hstep.2.1, hstep.2.2.2⟩

/-- A sample well-formed question for concrete traces. -/
def sampleQuestion : Question :=
  { question := "q", options := ["a", "b"], correct_answer_index := 0,
    knowledge_tag := "T", explanation := "e", difficulty_level := 50,
    estimated_time := 30 }

/-- A sample round answering `sampleQuestion` correctly, quickly, with
middling confidence. -/
def sampleRound : RoundInput :=
  { question := sampleQuestion, ask_time := 0, answer_index := 0,
    confidence := 1 / 2, answer_time := 10 }

/-- Witness for `domain_progress_monotone_and_bounded` on a one-round
trace. -/
theorem domain_progress_monotone_and_bounded_witness :
    (∀ r ∈ [sampleRound], 0 ≤ r.question.difficulty_level) ∧ (0 : ℕ) < 1 ∧
    (((FlowState.initial.start_domain_assessment
        { domain_name := "D" }).runRounds pyRound1 zeroCorr
        ([sampleRound].take 0)).domain_progress ≤
      ((FlowState.initial.start_domain_assessment
        { domain_name := "D" }).runRounds pyRound1 zeroCorr
        ([sampleRound].take (0 + 1))).domain_progress ∧
      ((FlowState.initial.start_domain_assessment
        { domain_name := "D" }).runRounds pyRound1 zeroCorr
        ([sampleRound].take (0 + 1))).domain_progress ≤
      ((FlowState.initial.start_domain_assessment
        { domain_name := "D" }).runRounds pyRound1 zeroCorr
        ([sampleRound].take 0)).domain_progress + 20 ∧
      ((FlowState.initial.start_domain_assessment
        { domain_name := "D" }).runRounds pyRound1 zeroCorr
        ([sampleRound].take (0 + 1))).domain_progress ≤ 100) :=
  ⟨by intro r hr
      simp only [List.mem_singleton] at hr
      rw [hr]
      norm_num [sampleRound, sampleQuestion],
   by norm_num,
   domain_progress_monotone_and_bounded pyRound1 zeroCorr { domain_name := "D" }
     [sampleRound]
     (by intro r hr
         simp only [List.mem_singleton] at hr
         rw [hr]
         norm_num [sampleRound, sampleQuestion])
     0 (by norm_num)⟩

/-- Appending one response makes it the last one. -/
lemma getLast?_append_singleton (l : List QuestionResponse)
    (a : QuestionResponse) : (l ++ [a]).getLast? = some a := by
  simp

set_option maxHeartbeats 1000000 in
/-- Claim C2 (amended): `submit_answer` performs no validation of the
answer index, and no InvalidInput error exists.  With an active question
whose correct index lies in range, an out-of-range `answer_index` is
processed as an incorrect answer: the response is appended and
`questions_attempted` increments.  The call then either returns that
update normally, or — when the updated progress reaches 100 — raises the
completion path's `KeyError` (the missing-config-key bug of
`complete_domain_assessment`, unrelated to index validation) with those
mutations already applied and the appended response graded incorrect; the
guard's error dictionary never occurs. -/
theorem out_of_range_answer_is_processed (roundFn : ℚ → ℚ)
    (corrFn : List ℚ → List ℚ → ℚ) (st : FlowState) (q : Question)
    (da : DomainAssessment) (eng : DiffEngine) (cm : QualityMetrics)
    (idx : ℤ) (conf now : ℚ)
    (hq : st.current_question = some q)
    (hda : st.current_domain_assessment = some da)
    (heng : st.difficulty_engine = some eng)
    (hcm : st.confidence_metrics = some cm)
    (hcorr0 : 0 ≤ q.correct_answer_index)
    (hcorr1 : q.correct_answer_index < (q.options.length : ℤ))
    (hidx : idx < 0 ∨ (q.options.length : ℤ) ≤ idx) :
    match st.submit_answer roundFn corrFn idx conf now with
    | SubmitOutcome.ok r s2 =>
        r.is_correct = false ∧
        s2.current_domain_assessment.map (fun d => d.questions_attempted) =
          some (da.questions_attempted + 1) ∧
        s2.current_domain_assessment.map (fun d => d.response_history.length) =
          some (da.response_history.length + 1)
    | SubmitOutcome.errorDict _ _ => False
    | SubmitOutcome.raised e s2 =>
        e = "KeyError: domain_mastered_score" ∧
        s2.current_domain_assessment.map (fun d => d.questions_attempted) =
          some (da.questions_attempted + 1) ∧
        s2.current_domain_assessment.map (fun d => d.response_history.length) =
          some (da.response_history.length + 1) ∧
        s2.current_domain_assessment.map
          (fun d => d.response_history.getLast?.map (fun rec => rec.is_correct)) =
          some (some false) := by
  have hne : ¬(idx = q.correct_answer_index) := by omega
  obtain ⟨oda, oeng, ocm, oq, ot, prog⟩ := st
  obtain rfl : oq = some q := hq
  obtain rfl : oda = some da := hda
  obtain rfl : oeng = some eng := heng
  obtain rfl : ocm = some cm := hcm
  rcases ot with _ | t0
  · simp only [FlowState.submit_answer]
    generalize calculate_enhanced_progress_increment roundFn
      (cm.add_data_point (eng.calculate_system_confidence
        (decide (idx = q.correct_answer_index)) 30)
        (decide (idx = q.correct_answer_index)))
      (decide (idx = q.correct_answer_index))
      (eng.calculate_system_confidence (decide (idx = q.correct_answer_index)) 30)
      q.difficulty_level 30 = inc
    split
    · rename_i r s2 heq
      split at heq
      · simp only [FlowState.complete_domain_assessment] at heq
        simp at heq
      · cases heq
        exact ⟨decide_eq_false hne, rfl, by simp [List.length_append]⟩
    · rename_i e s2 heq
      split at heq
      · simp only [FlowState.complete_domain_assessment] at heq
        simp at heq
      · simp at heq
    · rename_i e s2 heq
      split at heq
      · simp only [FlowState.complete_domain_assessment] at heq
        cases heq
        refine ⟨rfl, rfl, by simp [List.length_append], ?_⟩
        simp [getLast?_append_singleton, decide_eq_false hne]
      · simp at heq
  · simp only [FlowState.submit_answer]
    generalize calculate_enhanced_progress_increment roundFn
      (cm.add_data_point (eng.calculate_system_confidence
        (decide (idx = q.correct_answer_index)) (now - t0))
        (decide (idx = q.correct_answer_index)))
      (decide (idx = q.correct_answer_index))
      (eng.calculate_system_confidence (decide (idx = q.correct_answer_index)) (now - t0))
      q.difficulty_level (now - t0) = inc
    split
    · rename_i r s2 heq
      split at heq
      · simp only [FlowState.complete_domain_assessment] at heq
        simp at heq
      · cases heq
        exact ⟨decide_eq_false hne, rfl, by simp [List.length_append]⟩
    · rename_i e s2 heq
      split at heq
      · simp only [FlowState.complete_domain_assessment] at heq
        simp at heq
      · simp at heq
    · rename_i e s2 heq
      split at heq
      · simp only [FlowState.complete_domain_assessment] at heq
        cases heq
        refine ⟨rfl, rfl, by simp [List.length_append], ?_⟩
        simp [getLast?_append_singleton, decide_eq_false hne]
      · simp at heq

set_option maxHeartbeats 4000000 in
/-- Counterexample to claim C2: with a fresh domain and an active 2-option
question, submitting the out-of-range index 5 is not rejected: the call
returns normally (no error dictionary, no exception), the answer is graded
incorrect, and `questions_attempted` mutates from 0 to 1. -/
theorem invalid_index_not_rejected :
    (((FlowState.initial.start_domain_assessment
        { domain_name := "D" }).provide_question sampleQuestion 0).submit_answer
        pyRound1 zeroCorr 5 (1 / 2) 10).result?.map (fun r => r.is_correct) =
      some false ∧
    (((FlowState.initial.start_domain_assessment
        { domain_name := "D" }).provide_question sampleQuestion 0).submit_answer
        pyRound1 zeroCorr 5 (1 / 2) 10).exception? = none ∧
    (((FlowState.initial.start_domain_assessment
        { domain_name := "D" }).provide_question sampleQuestion 0).submit_answer
        pyRound1 zeroCorr 5 (1 / 2) 10).state.current_domain_assessment.map
      (fun d => d.questions_attempted) = some 1 := by
  norm_num [FlowState.initial, FlowState.start_domain_assessment,
    FlowState.provide_question, FlowState.submit_answer,
    FlowState.complete_domain_assessment, calculate_enhanced_progress_increment,
    SubmitOutcome.result?, SubmitOutcome.state, SubmitOutcome.exception?,
    QualityMetrics.init, QualityMetrics.add_data_point,
    QualityMetrics.get_confidence_quality_score, DiffEngine.init,
    DiffEngine.update_difficulty, DiffEngine.calculate_enhanced_adjustment,
    DiffEngine.calculate_time_impact, DiffEngine.calculate_stability_factor,
    DiffEngine.calculate_system_confidence, EnhConfEngine.init,
    EnhConfEngine.calculate_confidence_impact, EnhConfEngine.update_correlation,
    EnhConfEngine.calculate_comprehensive_impact, CalibEngine.init,
    CalibEngine.update_calibration, CalibEngine.calculate_calibration_curve,
    CalibEngine.get_calibrated_confidence, CalibEngine.interpolate_confidence,
    buildCurve, dedupKeys, countTrue, countChanges, sortKeys, curveGet,
    insertSorted, interpScan, sampleQuestion, pyInt, pyRound1, zeroCorr,
    pyGetStr, min_def, max_def, CORRECT_ANSWER_BASE_POINTS,
    MAX_QUESTIONS_PER_DOMAIN, HONESTY_REWARD, DIFFICULTY_BONUS_MULTIPLIER,
    CONFIDENCE_BONUS_MULTIPLIER, TIME_BONUS_THRESHOLD, EXPECTED_TIME_BASE,
    CONFIDENCE_HISTORY_SIZE]

/-- Witness for `out_of_range_answer_is_processed` at index 5 against a
2-option question. -/
theorem out_of_range_answer_is_processed_witness :
    (0 ≤ sampleQuestion.correct_answer_index ∧
      sampleQuestion.correct_answer_index < (sampleQuestion.options.length : ℤ) ∧
      ((5 : ℤ) < 0 ∨ (sampleQuestion.options.length : ℤ) ≤ 5)) ∧
    (match ((FlowState.initial.start_domain_assessment
        { domain_name := "D" }).provide_question sampleQuestion 0).submit_answer
        pyRound1 zeroCorr 5 (1 / 2) 10 with
    | SubmitOutcome.ok r s2 =>
        r.is_correct = false ∧
        s2.current_domain_assessment.map (fun d => d.questions_attempted) =
          some (({ domain_name := "D", status := .IN_PROGRESS } :
            DomainAssessment).questions_attempted + 1) ∧
        s2.current_domain_assessment.map (fun d => d.response_history.length) =
          some (({ domain_name := "D", status := .IN_PROGRESS } :
            DomainAssessment).response_history.length + 1)
    | SubmitOutcome.errorDict _ _ => False
    | SubmitOutcome.raised e s2 =>
        e = "KeyError: domain_mastered_score" ∧
        s2.current_domain_assessment.map (fun d => d.questions_attempted) =
          some (({ domain_name := "D", status := .IN_PROGRESS } :
            DomainAssessment).questions_attempted + 1) ∧
        s2.current_domain_assessment.map (fun d => d.response_history.length) =
          some (({ domain_name := "D", status := .IN_PROGRESS } :
            DomainAssessment).response_history.length + 1) ∧
        s2.current_domain_assessment.map
          (fun d => d.response_history.getLast?.map (fun rec => rec.is_correct)) =
          some (some false)) :=
  ⟨⟨by norm_num [sampleQuestion], by norm_num [sampleQuestion],
     Or.inr (by norm_num [sampleQuestion])⟩,
   out_of_range_answer_is_processed pyRound1 zeroCorr
     ((FlowState.initial.start_domain_assessment
       { domain_name := "D" }).provide_question sampleQuestion 0)
     sampleQuestion { domain_name := "D", status := .IN_PROGRESS }
     (DiffEngine.init 50) (QualityMetrics.init CONFIDENCE_HISTORY_SIZE)
     5 (1 / 2) 10 rfl rfl rfl rfl
     (by norm_num [sampleQuestion]) (by norm_num [sampleQuestion])
     (Or.inr (by norm_num [sampleQuestion]))⟩

set_option maxHeartbeats 1000000 in
/-- Claim C5 (amended): the progress-reaches-100 check is the only
completion gate — no early-stopping path on attempts, accuracy or
difficulty exists anywhere in the code.  When the updated progress stays
below 100 the submission returns with `domain_complete = false` and the
assessment's status unchanged; when it reaches 100 the source attempts the
terminal transition but `complete_domain_assessment` raises its `KeyError`
(the mastery/completion score keys are missing from `CONFIG["scoring"]`),
so the status is again left unchanged and no terminal state is ever
entered. -/
theorem progress_gate_and_raise_on_completion (roundFn : ℚ → ℚ)
    (corrFn : List ℚ → List ℚ → ℚ) (st : FlowState) (q : Question)
    (da : DomainAssessment) (eng : DiffEngine) (cm : QualityMetrics)
    (idx : ℤ) (conf now : ℚ)
    (hq : st.current_question = some q)
    (hda : st.current_domain_assessment = some da)
    (heng : st.difficulty_engine = some eng)
    (hcm : st.confidence_metrics = some cm) :
    match st.submit_answer roundFn corrFn idx conf now with
    | SubmitOutcome.ok r s2 =>
        r.domain_complete = false ∧ s2.domain_progress < 100 ∧
        s2.current_domain_assessment.map (fun d => d.status) = some da.status
    | SubmitOutcome.errorDict _ _ => False
    | SubmitOutcome.raised e s2 =>
        100 ≤ s2.domain_progress ∧ e = "KeyError: domain_mastered_score" ∧
        s2.current_domain_assessment.map (fun d => d.status) = some da.status := by
  obtain ⟨oda, oeng, ocm, oq, ot, prog⟩ := st
  obtain rfl : oq = some q := hq
  obtain rfl : oda = some da := hda
  obtain rfl : oeng = some eng := heng
  obtain rfl : ocm = some cm := hcm
  rcases ot with _ | t0
  · simp only [FlowState.submit_answer]
    generalize calculate_enhanced_progress_increment roundFn
      (cm.add_data_point (eng.calculate_system_confidence
        (decide (idx = q.correct_answer_index)) 30)
        (decide (idx = q.correct_answer_index)))
      (decide (idx = q.correct_answer_index))
      (eng.calculate_system_confidence (decide (idx = q.correct_answer_index)) 30)
      q.difficulty_level 30 = inc
    split
    · rename_i r s2 heq
      split at heq
      · simp only [FlowState.complete_domain_assessment] at heq
        simp at heq
      · rename_i h100
        cases heq
        exact ⟨rfl, not_le.mp h100, rfl⟩
    · rename_i e s2 heq
      split at heq
      · simp only [FlowState.complete_domain_assessment] at heq
        simp at heq
      · simp at heq
    · rename_i e s2 heq
      split at heq
      · rename_i h100
        simp only [FlowState.complete_domain_assessment] at heq
        cases heq
        exact ⟨h100, rfl, rfl⟩
      · simp at heq
  · simp only [FlowState.submit_answer]
    generalize calculate_enhanced_progress_increment roundFn
      (cm.add_data_point (eng.calculate_system_confidence
        (decide (idx = q.correct_answer_index)) (now - t0))
        (decide (idx = q.correct_answer_index)))
      (decide (idx = q.correct_answer_index))
      (eng.calculate_system_confidence (decide (idx = q.correct_answer_index)) (now - t0))
      q.difficulty_level (now - t0) = inc
    split
    · rename_i r s2 heq
      split at heq
      · simp only [FlowState.complete_domain_assessment] at heq
        simp at heq
      · rename_i h100
        cases heq
        exact ⟨rfl, not_le.mp h100, rfl⟩
    · rename_i e s2 heq
      split at heq
      · simp only [FlowState.complete_domain_assessment] at heq
        simp at heq
      · simp at heq
    · rename_i e s2 heq
      split at heq
      · rename_i h100
        simp only [FlowState.complete_domain_assessment] at heq
        cases heq
        exact ⟨h100, rfl, rfl⟩
      · simp at heq

/-- Witness for `progress_gate_and_raise_on_completion` on a fresh domain
with an active question. -/
theorem progress_gate_and_raise_on_completion_witness :
    match ((FlowState.initial.start_domain_assessment
        { domain_name := "D" }).provide_question sampleQuestion 0).submit_answer
        pyRound1 zeroCorr 0 (1 / 2) 10 with
    | SubmitOutcome.ok r s2 =>
        r.domain_complete = false ∧ s2.domain_progress < 100 ∧
        s2.current_domain_assessment.map (fun d => d.status) =
          some ({ domain_name := "D", status := .IN_PROGRESS } :
            DomainAssessment).status
    | SubmitOutcome.errorDict _ _ => False
    | SubmitOutcome.raised e s2 =>
        100 ≤ s2.domain_progress ∧ e = "KeyError: domain_mastered_score" ∧
        s2.current_domain_assessment.map (fun d => d.status) =
          some ({ domain_name := "D", status := .IN_PROGRESS } :
            DomainAssessment).status :=
  progress_gate_and_raise_on_completion pyRound1 zeroCorr
    ((FlowState.initial.start_domain_assessment
      { domain_name := "D" }).provide_question sampleQuestion 0)
    sampleQuestion { domain_name := "D", status := .IN_PROGRESS }
    (DiffEngine.init 50) (QualityMetrics.init CONFIDENCE_HISTORY_SIZE)
    0 (1 / 2) 10 rfl rfl rfl rfl

/-- The state of claim C5's counterexample: ten questions attempted, all
ten correct (accuracy 100% ≥ any mastery threshold), difficulty 99 (≥ 80),
an active question, and progress still at 0. -/
def earlyStopState : FlowState :=
  { current_domain_assessment := some
      { domain_name := "D", status := .IN_PROGRESS, current_difficulty := 99,
        questions_attempted := 10, questions_correct := 10 },
    difficulty_engine := some (DiffEngine.init 99),
    confidence_metrics := some (QualityMetrics.init 100),
    current_question := some sampleQuestion,
    question_start_time := some 0,
    domain_progress := 0 }

set_option maxHeartbeats 4000000 in
/-- Counterexample to claim C5: from `earlyStopState`, an 11th correct
answer leaves attempts at 11 ≥ 10 with accuracy 11/11 = 100% ≥ 85% and
difficulty 100 ≥ 80 — every claimed early-stopping condition holds — yet
the submission returns normally with `domain_complete = false` and the
status stays IN_PROGRESS: no early terminal transition exists. -/
theorem early_stop_conditions_do_not_terminate :
    (earlyStopState.submit_answer pyRound1 zeroCorr 0 (9 / 10) 10).result?.map
      (fun r => r.domain_complete) = some false ∧
    (earlyStopState.submit_answer pyRound1 zeroCorr
        0 (9 / 10) 10).state.current_domain_assessment.map
      (fun d => (d.status, d.questions_attempted, d.questions_correct,
        d.current_difficulty)) =
      some (DomainStatus.IN_PROGRESS, 11, 11, 100) ∧
    (85 : ℚ) ≤ ((11 : ℚ) / 11) * 100 ∧ (80 : ℤ) ≤ 100 ∧ (10 : ℕ) ≤ 11 := by
  refine ⟨?_, ?_, by norm_num, by norm_num, by norm_num⟩ <;>
  norm_num [earlyStopState, FlowState.submit_answer,
    FlowState.complete_domain_assessment, calculate_enhanced_progress_increment,
    SubmitOutcome.result?, SubmitOutcome.state, SubmitOutcome.exception?,
    QualityMetrics.init, QualityMetrics.add_data_point,
    QualityMetrics.get_confidence_quality_score, DiffEngine.init,
    DiffEngine.update_difficulty, DiffEngine.calculate_enhanced_adjustment,
    DiffEngine.calculate_time_impact, DiffEngine.calculate_stability_factor,
    DiffEngine.calculate_system_confidence, EnhConfEngine.init,
    EnhConfEngine.calculate_confidence_impact, EnhConfEngine.update_correlation,
    EnhConfEngine.calculate_comprehensive_impact, CalibEngine.init,
    CalibEngine.update_calibration, CalibEngine.calculate_calibration_curve,
    CalibEngine.get_calibrated_confidence, CalibEngine.interpolate_confidence,
    buildCurve, dedupKeys, countTrue, countChanges, sortKeys, curveGet,
    insertSorted, interpScan, sampleQuestion, pyInt, pyRound1, zeroCorr,
    pyGetStr, min_def, max_def, CORRECT_ANSWER_BASE_POINTS,
    MAX_QUESTIONS_PER_DOMAIN, HONESTY_REWARD, DIFFICULTY_BONUS_MULTIPLIER,
    CONFIDENCE_BONUS_MULTIPLIER, TIME_BONUS_THRESHOLD, EXPECTED_TIME_BASE,
    CONFIDENCE_HISTORY_SIZE]

/-- The knowledge-tag bookkeeping one submission applies to the assessment
(question_flow.py lines 117-124): the tag joins the mastery areas on a
correct answer and the knowledge gaps on an incorrect one (the other list
untouched), and neither list ever loses an element. -/
def TagRouting (q : Question) (idx : ℤ) (da da2 : DomainAssessment) : Prop :=
  (idx = q.correct_answer_index →
    q.knowledge_tag ∈ da2.mastery_areas ∧
    da2.knowledge_gaps = da.knowledge_gaps) ∧
  (¬(idx = q.correct_answer_index) →
    q.knowledge_tag ∈ da2.knowledge_gaps ∧
    da2.mastery_areas = da.mastery_areas) ∧
  (∀ t ∈ da.knowledge_gaps, t ∈ da2.knowledge_gaps) ∧
  (∀ t ∈ da.mastery_areas, t ∈ da2.mastery_areas)

set_option maxHeartbeats 1000000 in
/-- Claim C6 (amended): each submitted answer routes the question's
knowledge tag to exactly one list — into `knowledge_gaps` when incorrect,
into `mastery_areas` when correct (each list kept duplicate-free) — and
tags are never removed from either list; this also holds of the state
carried by the completion-path raise, whose tag mutations precede it.
Since no cross-removal happens, a tag answered both incorrectly and
correctly ends up in both lists (see the counterexample); the two lists
are not kept disjoint. -/
theorem knowledge_tag_routed_by_correctness (roundFn : ℚ → ℚ)
    (corrFn : List ℚ → List ℚ → ℚ) (st : FlowState) (q : Question)
    (da : DomainAssessment) (eng : DiffEngine) (cm : QualityMetrics)
    (idx : ℤ) (conf now : ℚ)
    (hq : st.current_question = some q)
    (hda : st.current_domain_assessment = some da)
    (heng : st.difficulty_engine = some eng)
    (hcm : st.confidence_metrics = some cm) :
    match st.submit_answer roundFn corrFn idx conf now with
    | SubmitOutcome.ok r s2 =>
        r.is_correct = decide (idx = q.correct_answer_index) ∧
        ∃ da2, s2.current_domain_assessment = some da2 ∧ TagRouting q idx da da2
    | SubmitOutcome.errorDict _ _ => False
    | SubmitOutcome.raised _ s2 =>
        ∃ da2, s2.current_domain_assessment = some da2 ∧ TagRouting q idx da da2 := by
  obtain ⟨oda, oeng, ocm, oq, ot, prog⟩ := st
  obtain rfl : oq = some q := hq
  obtain rfl : oda = some da := hda
  obtain rfl : oeng = some eng := heng
  obtain rfl : ocm = some cm := hcm
  have main : ∀ (b : Bool),
      (b = true →
        (q.knowledge_tag ∈
          (if b = true then
            (if q.knowledge_tag ∈ da.mastery_areas then da.mastery_areas
             else da.mastery_areas ++ [q.knowledge_tag])
           else da.mastery_areas)) ∧
        ((if b = true then da.knowledge_gaps
          else if q.knowledge_tag ∈ da.knowledge_gaps then da.knowledge_gaps
          else da.knowledge_gaps ++ [q.knowledge_tag]) = da.knowledge_gaps)) ∧
      (b = false →
        (q.knowledge_tag ∈
          (if b = true then da.knowledge_gaps
           else if q.knowledge_tag ∈ da.knowledge_gaps then da.knowledge_gaps
           else da.knowledge_gaps ++ [q.knowledge_tag])) ∧
        ((if b = true then
            (if q.knowledge_tag ∈ da.mastery_areas then da.mastery_areas
             else da.mastery_areas ++ [q.knowledge_tag])
          else da.mastery_areas) = da.mastery_areas)) ∧
      (∀ t ∈ da.knowledge_gaps,
        t ∈ (if b = true then da.knowledge_gaps
          else if q.knowledge_tag ∈ da.knowledge_gaps then da.knowledge_gaps
          else da.knowledge_gaps ++ [q.knowledge_tag])) ∧
      (∀ t ∈ da.mastery_areas,
        t ∈ (if b = true then
            (if q.knowledge_tag ∈ da.mastery_areas then da.mastery_areas
             else da.mastery_areas ++ [q.knowledge_tag])
          else da.mastery_areas)) := by
    intro b
    cases b with
    | true =>
      refine ⟨fun _ => ⟨?_, by simp⟩, fun h => by simp at h,
        fun t ht => by simp [ht], fun t ht => ?_⟩
      · by_cases hmem : q.knowledge_tag ∈ da.mastery_areas <;> simp [hmem]
      · by_cases hmem : q.knowledge_tag ∈ da.mastery_areas <;> simp [hmem, ht]
    | false =>
      refine ⟨fun h => by simp at h, fun _ => ⟨?_, by simp⟩,
        fun t ht => ?_, fun t ht => by simp [ht]⟩
      · by_cases hmem : q.knowledge_tag ∈ da.knowledge_gaps <;> simp [hmem]
      · by_cases hmem : q.knowledge_tag ∈ da.knowledge_gaps <;> simp [hmem, ht]
  have routed : TagRouting q idx da
      { domain_name := da.domain_name, status := da.status,
        current_difficulty := da.current_difficulty,
        questions_attempted := da.questions_attempted,
        questions_correct := da.questions_correct,
        response_history := da.response_history,
        knowledge_gaps :=
          if decide (idx = q.correct_answer_index) = true then da.knowledge_gaps
          else if q.knowledge_tag ∈ da.knowledge_gaps then da.knowledge_gaps
          else da.knowledge_gaps ++ [q.knowledge_tag],
        mastery_areas :=
          if decide (idx = q.correct_answer_index) = true then
            (if q.knowledge_tag ∈ da.mastery_areas then da.mastery_areas
             else da.mastery_areas ++ [q.knowledge_tag])
          else da.mastery_areas,
        average_response_time := da.average_response_time,
        confidence_score := da.confidence_score } := by
    exact ⟨fun hP => (main (decide (idx = q.correct_answer_index))).1
        (decide_eq_true hP),
      fun hP => (main (decide (idx = q.correct_answer_index))).2.1
        (decide_eq_false hP),
      (main (decide (idx = q.correct_answer_index))).2.2.1,
      (main (decide (idx = q.correct_answer_index))).2.2.2⟩
  have routed2 : ∀ (da2 : DomainAssessment),
      da2.knowledge_gaps =
        (if decide (idx = q.correct_answer_index) = true then da.knowledge_gaps
         else if q.knowledge_tag ∈ da.knowledge_gaps then da.knowledge_gaps
         else da.knowledge_gaps ++ [q.knowledge_tag]) →
      da2.mastery_areas =
        (if decide (idx = q.correct_answer_index) = true then
          (if q.knowledge_tag ∈ da.mastery_areas then da.mastery_areas
           else da.mastery_areas ++ [q.knowledge_tag])
         else da.mastery_areas) →
      TagRouting q idx da da2 := by
    intro da2 hg hm
    refine ⟨fun hP => ?_, fun hP => ?_, fun t ht => ?_, fun t ht => ?_⟩
    · rw [hm, hg]; exact routed.1 hP
    · rw [hg, hm]; exact routed.2.1 hP
    · rw [hg]; exact routed.2.2.1 t ht
    · rw [hm]; exact routed.2.2.2 t ht
  rcases ot with _ | t0
  · simp only [FlowState.submit_answer]
    generalize calculate_enhanced_progress_increment roundFn
      (cm.add_data_point (eng.calculate_system_confidence
        (decide (idx = q.correct_answer_index)) 30)
        (decide (idx = q.correct_answer_index)))
      (decide (idx = q.correct_answer_index))
      (eng.calculate_system_confidence (decide (idx = q.correct_answer_index)) 30)
      q.difficulty_level 30 = inc
    split
    · rename_i r s2 heq
      split at heq
      · simp only [FlowState.complete_domain_assessment] at heq
        simp at heq
      · cases heq
        exact ⟨rfl, _, rfl, routed2 _ rfl rfl⟩
    · rename_i e s2 heq
      split at heq
      · simp only [FlowState.complete_domain_assessment] at heq
        simp at heq
      · simp at heq
    · rename_i e s2 heq
      split at heq
      · simp only [FlowState.complete_domain_assessment] at heq
        cases heq
        exact ⟨_, rfl, routed2 _ rfl rfl⟩
      · simp at heq
  · simp only [FlowState.submit_answer]
    generalize calculate_enhanced_progress_increment roundFn
      (cm.add_data_point (eng.calculate_system_confidence
        (decide (idx = q.correct_answer_index)) (now - t0))
        (decide (idx = q.correct_answer_index)))
      (decide (idx = q.correct_answer_index))
      (eng.calculate_system_confidence (decide (idx = q.correct_answer_index)) (now - t0))
      q.difficulty_level (now - t0) = inc
    split
    · rename_i r s2 heq
      split at heq
      · simp only [FlowState.complete_domain_assessment] at heq
        simp at heq
      · cases heq
        exact ⟨rfl, _, rfl, routed2 _ rfl rfl⟩
    · rename_i e s2 heq
      split at heq
      · simp only [FlowState.complete_domain_assessment] at heq
        simp at heq
      · simp at heq
    · rename_i e s2 heq
      split at heq
      · simp only [FlowState.complete_domain_assessment] at heq
        cases heq
        exact ⟨_, rfl, routed2 _ rfl rfl⟩
      · simp at heq

/-- Witness for `knowledge_tag_routed_by_correctness` on a fresh domain. -/
theorem knowledge_tag_routed_by_correctness_witness :
    match ((FlowState.initial.start_domain_assessment
        { domain_name := "D" }).provide_question sampleQuestion 0).submit_answer
        pyRound1 zeroCorr 0 (1 / 2) 10 with
    | SubmitOutcome.ok r s2 =>
        r.is_correct = decide ((0 : ℤ) = sampleQuestion.correct_answer_index) ∧
        ∃ da2, s2.current_domain_assessment = some da2 ∧
          TagRouting sampleQuestion 0
            { domain_name := "D", status := .IN_PROGRESS } da2
    | SubmitOutcome.errorDict _ _ => False
    | SubmitOutcome.raised _ s2 =>
        ∃ da2, s2.current_domain_assessment = some da2 ∧
          TagRouting sampleQuestion 0
            { domain_name := "D", status := .IN_PROGRESS } da2 :=
  knowledge_tag_routed_by_correctness pyRound1 zeroCorr
    ((FlowState.initial.start_domain_assessment
      { domain_name := "D" }).provide_question sampleQuestion 0)
    sampleQuestion { domain_name := "D", status := .IN_PROGRESS }
    (DiffEngine.init 50) (QualityMetrics.init CONFIDENCE_HISTORY_SIZE)
    0 (1 / 2) 10 rfl rfl rfl rfl

set_option maxHeartbeats 4000000 in
/-- Counterexample to claim C6: answer the tag-"T" question wrongly, then
the same tag correctly — the tag ends up simultaneously in both the
knowledge-gaps and the mastery-areas lists. -/
theorem tag_simultaneously_gap_and_mastery :
    (((FlowState.initial.start_domain_assessment
        { domain_name := "D" }).runRound pyRound1 zeroCorr
        { question := sampleQuestion, ask_time := 0, answer_index := 1,
          confidence := 1 / 2, answer_time := 10 }).runRound pyRound1 zeroCorr
        { question := sampleQuestion, ask_time := 20, answer_index := 0,
          confidence := 1 / 2, answer_time := 30 }).current_domain_assessment.map
      (fun d => (d.knowledge_gaps, d.mastery_areas)) =
    some (["T"], ["T"]) := by
  norm_num [FlowState.initial, FlowState.start_domain_assessment,
    FlowState.provide_question, FlowState.runRound, FlowState.submit_answer,
    FlowState.complete_domain_assessment, calculate_enhanced_progress_increment,
    SubmitOutcome.state, QualityMetrics.init, QualityMetrics.add_data_point,
    QualityMetrics.get_confidence_quality_score, DiffEngine.init,
    DiffEngine.update_difficulty, DiffEngine.calculate_enhanced_adjustment,
    DiffEngine.calculate_time_impact, DiffEngine.calculate_stability_factor,
    DiffEngine.calculate_system_confidence, EnhConfEngine.init,
    EnhConfEngine.calculate_confidence_impact, EnhConfEngine.update_correlation,
    EnhConfEngine.calculate_comprehensive_impact, CalibEngine.init,
    CalibEngine.update_calibration, CalibEngine.calculate_calibration_curve,
    CalibEngine.get_calibrated_confidence, CalibEngine.interpolate_confidence,
    buildCurve, dedupKeys, countTrue, countChanges, sortKeys, curveGet,
    insertSorted, interpScan, sampleQuestion, pyInt, pyRound1, zeroCorr,
    pyGetStr, min_def, max_def, CORRECT_ANSWER_BASE_POINTS,
    MAX_QUESTIONS_PER_DOMAIN, HONESTY_REWARD, DIFFICULTY_BONUS_MULTIPLIER,
    CONFIDENCE_BONUS_MULTIPLIER, TIME_BONUS_THRESHOLD, EXPECTED_TIME_BASE,
    CONFIDENCE_HISTORY_SIZE]

/-- The confidence-independent observables of a submission outcome: the
returned result's progress, difficulty, quality, completion flag and
domain status, the raised exception (if any), and the manager state's
progress, difficulty engine, quality metrics, and the assessment's status
and stored difficulty. -/
def SubmitOutcome.observables (o : SubmitOutcome) :
    Option (ℚ × ℚ × ℚ × Bool × Option DomainStatus) × Option String × ℚ ×
      Option DiffEngine × Option QualityMetrics ×
      Option (DomainStatus × ℤ) :=
  (o.result?.map (fun r => (r.progress, r.current_difficulty,
      r.confidence_quality, r.domain_complete, r.domain_status)),
   o.exception?, o.state.domain_progress, o.state.difficulty_engine,
   o.state.confidence_metrics,
   o.state.current_domain_assessment.map
     (fun d => (d.status, d.current_difficulty)))

set_option maxHeartbeats 2000000 in
/-- Claim C10: the user-supplied confidence argument of `submit_answer`
never influences the computation.  Two submissions from the same state
with the same answer index but different confidence values produce
identical observables — result progress, difficulty, confidence quality,
completion flag and domain status, raised exception, and the state's
progress, difficulty-engine, metrics and assessment status/difficulty;
the supplied confidence is only stored in the appended response record,
while the pipeline uses the system-computed confidence from
`calculate_system_confidence`. -/
theorem user_confidence_noninterference (roundFn : ℚ → ℚ)
    (corrFn : List ℚ → List ℚ → ℚ) (st : FlowState) (idx : ℤ)
    (c1 c2 now : ℚ) :
    (st.submit_answer roundFn corrFn idx c1 now).observables =
      (st.submit_answer roundFn corrFn idx c2 now).observables ∧
    (match st.submit_answer roundFn corrFn idx c1 now with
     | SubmitOutcome.ok _ s2 => ∃ da2, s2.current_domain_assessment = some da2 ∧
         ∃ rec, da2.response_history.getLast? = some rec ∧
           rec.confidence_level = c1 ∧ rec.user_answer_index = idx
     | SubmitOutcome.errorDict _ _ => True
     | SubmitOutcome.raised _ s2 => ∃ da2, s2.current_domain_assessment = some da2 ∧
         ∃ rec, da2.response_history.getLast? = some rec ∧
           rec.confidence_level = c1 ∧ rec.user_answer_index = idx) := by
  obtain ⟨oda, oeng, ocm, oq, ot, prog⟩ := st
  rcases oq with _ | q
  · exact ⟨rfl, by simp [FlowState.submit_answer]⟩
  rcases oda with _ | da
  · exact ⟨rfl, by simp [FlowState.submit_answer]⟩
  rcases oeng with _ | eng
  · exact ⟨rfl, by simp [FlowState.submit_answer]⟩
  rcases ocm with _ | cm
  · exact ⟨rfl, by simp [FlowState.submit_answer]⟩
  rcases ot with _ | t0
  · constructor
    · simp only [FlowState.submit_answer]
      generalize calculate_enhanced_progress_increment roundFn
        (cm.add_data_point (eng.calculate_system_confidence
          (decide (idx = q.correct_answer_index)) 30)
          (decide (idx = q.correct_answer_index)))
        (decide (idx = q.correct_answer_index))
        (eng.calculate_system_confidence (decide (idx = q.correct_answer_index)) 30)
        q.difficulty_level 30 = inc
      by_cases h100 : (100 : ℚ) ≤ min 100 (prog + inc)
      · simp only [if_pos h100, FlowState.complete_domain_assessment]
        rfl
      · simp only [if_neg h100]
        rfl
    · simp only [FlowState.submit_answer]
      generalize calculate_enhanced_progress_increment roundFn
        (cm.add_data_point (eng.calculate_system_confidence
          (decide (idx = q.correct_answer_index)) 30)
          (decide (idx = q.correct_answer_index)))
        (decide (idx = q.correct_answer_index))
        (eng.calculate_system_confidence (decide (idx = q.correct_answer_index)) 30)
        q.difficulty_level 30 = inc
      split
      · rename_i r s2 heq
        split at heq
        · simp only [FlowState.complete_domain_assessment] at heq
          simp at heq
        · cases heq
          exact ⟨_, rfl, _, getLast?_append_singleton _ _, rfl, rfl⟩
      · exact trivial
      · rename_i e s2 heq
        split at heq
        · simp only [FlowState.complete_domain_assessment] at heq
          cases heq
          exact ⟨_, rfl, _, getLast?_append_singleton _ _, rfl, rfl⟩
        · simp at heq
  · constructor
    · simp only [FlowState.submit_answer]
      generalize calculate_enhanced_progress_increment roundFn
        (cm.add_data_point (eng.calculate_system_confidence
          (decide (idx = q.correct_answer_index)) (now - t0))
          (decide (idx = q.correct_answer_index)))
        (decide (idx = q.correct_answer_index))
        (eng.calculate_system_confidence (decide (idx = q.correct_answer_index)) (now - t0))
        q.difficulty_level (now - t0) = inc
      by_cases h100 : (100 : ℚ) ≤ min 100 (prog + inc)
      · simp only [if_pos h100, FlowState.complete_domain_assessment]
        rfl
      · simp only [if_neg h100]
        rfl
    · simp only [FlowState.submit_answer]
      generalize calculate_enhanced_progress_increment roundFn
        (cm.add_data_point (eng.calculate_system_confidence
          (decide (idx = q.correct_answer_index)) (now - t0))
          (decide (idx = q.correct_answer_index)))
        (decide (idx = q.correct_answer_index))
        (eng.calculate_system_confidence (decide (idx = q.correct_answer_index)) (now - t0))
        q.difficulty_level (now - t0) = inc
      split
      · rename_i r s2 heq
        split at heq
        · simp only [FlowState.complete_domain_assessment] at heq
          simp at heq
        · cases heq
          exact ⟨_, rfl, _, getLast?_append_singleton _ _, rfl, rfl⟩
      · exact trivial
      · rename_i e s2 heq
        split at heq
        · simp only [FlowState.complete_domain_assessment] at heq
          cases heq
          exact ⟨_, rfl, _, getLast?_append_singleton _ _, rfl, rfl⟩
        · simp at heq

/-- Witness for `six_identical_updates_saturate_difficulty` at the concrete
rounding and correlation functions. -/
theorem six_identical_updates_saturate_difficulty_witness :
    50 < ((DiffEngine.init 50).runUpdates pyRound1 zeroCorr
        (identicalCorrectFast 1)).current_difficulty ∧
    ((DiffEngine.init 50).runUpdates pyRound1 zeroCorr
        (identicalCorrectFast 6)).current_difficulty = 100 ∧
    ((DiffEngine.init 50).runUpdates pyRound1 zeroCorr
        (identicalCorrectFast 7)).current_difficulty = 100 :=
  six_identical_updates_saturate_difficulty pyRound1 zeroCorr

/-- Witness for `user_confidence_noninterference` at a concrete state and a
pair of distinct confidences. -/
theorem user_confidence_noninterference_witness :
    ((((FlowState.initial.start_domain_assessment
        { domain_name := "D" }).provide_question sampleQuestion 0).submit_answer
        pyRound1 zeroCorr 0 (1 / 10) 10).observables =
      (((FlowState.initial.start_domain_assessment
        { domain_name := "D" }).provide_question sampleQuestion 0).submit_answer
        pyRound1 zeroCorr 0 (9 / 10) 10).observables) ∧
    (match ((FlowState.initial.start_domain_assessment
        { domain_name := "D" }).provide_question sampleQuestion 0).submit_answer
        pyRound1 zeroCorr 0 (1 / 10) 10 with
     | SubmitOutcome.ok _ s2 => ∃ da2, s2.current_domain_assessment = some da2 ∧
         ∃ rec, da2.response_history.getLast? = some rec ∧
           rec.confidence_level = 1 / 10 ∧ rec.user_answer_index = 0
     | SubmitOutcome.errorDict _ _ => True
     | SubmitOutcome.raised _ s2 => ∃ da2, s2.current_domain_assessment = some da2 ∧
         ∃ rec, da2.response_history.getLast? = some rec ∧
           rec.confidence_level = 1 / 10 ∧ rec.user_answer_index = 0) :=
  user_confidence_noninterference pyRound1 zeroCorr
    ((FlowState.initial.start_domain_assessment
      { domain_name := "D" }).provide_question sampleQuestion 0)
    0 (1 / 10) (9 / 10) 10
